import Mathlib

/-!
Verification of the ASMG_layout interpreter core (src/interpreter/) against its
specification.  The Python source is shallowly embedded: Python dicts become
insertion-ordered association lists, Python floats become rationals, strings
stay strings, and every Python operation that can raise is modelled with
`Except String`.  Python truthiness (`if not x:`) is translated explicitly at
each use site.
-/

namespace ASMG

/-- Association-list lookup, modelling Python `dict.get` / `dict[k]` access
(first binding wins; our construction never duplicates keys, matching dict). -/
def lookup? {α : Type} (l : List (String × α)) (k : String) : Option α :=
  (l.find? (fun kv => kv.1 == k)).map (fun kv => kv.2)

/-- Key membership, modelling Python `k in dict`. -/
def hasKey {α : Type} (l : List (String × α)) (k : String) : Bool :=
  (l.map (fun kv => kv.1)).contains k

/-- Python `str.lower`, modelled per code point with `Char.toLower` (ASCII;
the repository's identifiers and config keys are ASCII). -/
def pyLower (s : String) : String :=
  ⟨s.data.map Char.toLower⟩

/-- Association-list update, modelling Python `dict[k] = v`: an existing key
keeps its position and gets the new value, a new key is appended. -/
def assocSet {α : Type} : List (String × α) → String → α → List (String × α)
  | [], k, v => [(k, v)]
  | (k1, v1) :: rest, k, v =>
    if k1 == k then (k, v) :: rest else (k1, v1) :: assocSet rest k v

/-! ## Data model (src/interpreter/data_models.py) -/

/-- data_models.Property: name, value and optional unit. -/
structure Property where
  name : String
  value : String
  unit : Option String := none
deriving DecidableEq

/-- data_models.Position. -/
structure Position where
  x : ℚ
  y : ℚ
  z : ℚ := 0
deriving DecidableEq

/-- data_models.Rotation. -/
structure Rotation where
  angle : ℚ
  axis_x : ℚ := 0
  axis_y : ℚ := 0
  axis_z : ℚ := 1
deriving DecidableEq

/-- data_models.Boundary. -/
structure Boundary where
  width : ℚ
  depth : ℚ
  height : ℚ := 1
  unit : String := "meter"
deriving DecidableEq

/-- data_models.Resource.  `properties` is the Python dict keyed by property
name. -/
structure Resource where
  identifier : String
  resource_type : String
  name : String
  description : String := ""
  current_status : String := "idle"
  resource_class_identifier : Option String := none
  properties : List (String × Property) := []
  connections : List String := []
deriving DecidableEq

/-- Resource.get_property: case-insensitive lookup returning the first
matching Property (Python `str.lower` modelled by `String.toLower`). -/
def Resource.get_property (r : Resource) (property_name : String) : Option Property :=
  (r.properties.find? (fun kv => pyLower kv.1 == pyLower property_name)).map
    (fun kv => kv.2)

/-- data_models.Connection. -/
structure Connection where
  identifier : String
  from_resource_id : String
  to_resource_id : String
  description : String := ""
deriving DecidableEq

/-- data_models.LayoutObject. -/
structure LayoutObject where
  identifier : String
  associated_resource_id : String
  boundary : Option Boundary := none
deriving DecidableEq

/-- data_models.Placement. -/
structure Placement where
  layout_element_id : String
  position : Position
  rotation : Option Rotation := none
deriving DecidableEq

/-- data_models.Layout; `placements` is the dict keyed by layout_element_id. -/
structure Layout where
  identifier : String
  description : String
  boundary : Option Boundary := none
  placements : List (String × Placement) := []
deriving DecidableEq

/-- data_models.PartType. -/
structure PartType where
  identifier : String
  name : String
  description : String := ""
  weight : Option ℚ := none
  dimensions : Option Boundary := none
deriving DecidableEq

/-- data_models.CMSDData: the root document aggregate. -/
structure CMSDData where
  document_identifier : String
  description : String
  version : String
  creation_time : String
  time_unit : String := "second"
  length_unit : String := "meter"
  weight_unit : String := "kilogram"
  resources : List (String × Resource) := []
  connections : List Connection := []
  layout_objects : List (String × LayoutObject) := []
  layout : Option Layout := none
  part_types : List (String × PartType) := []
deriving DecidableEq

/-! ## Validator (src/interpreter/data_models.py, ValidationResult / DataValidator) -/

/-- data_models.ValidationResult. -/
structure ValidationResult where
  is_valid : Bool
  errors : List String := []
  warnings : List String := []
deriving DecidableEq

/-- ValidationResult.add_error: append the message and clear is_valid. -/
def ValidationResult.add_error (r : ValidationResult) (message : String) : ValidationResult :=
  { r with errors := r.errors ++ [message], is_valid := false }

/-- ValidationResult.add_warning: append the message only. -/
def ValidationResult.add_warning (r : ValidationResult) (message : String) : ValidationResult :=
  { r with warnings := r.warnings ++ [message] }

/-- The error message for a LayoutObject whose resource reference is unknown. -/
def loErrorMsg (layout_obj_id ref : String) : String :=
  "LayoutObject '" ++ (layout_obj_id ++ ("' references unknown resource '" ++ (ref ++ "'")))

/-- The error message for a Placement whose layout object is unknown. -/
def placementErrorMsg (layout_element_id : String) : String :=
  "Placement references unknown layout object '" ++ (layout_element_id ++ "'")

/-- The error message for a Connection whose source resource is unknown. -/
def connFromMsg (c : Connection) : String :=
  "Connection '" ++ (c.identifier ++ ("' references unknown source resource '" ++
    (c.from_resource_id ++ "'")))

/-- The error message for a Connection whose target resource is unknown. -/
def connToMsg (c : Connection) : String :=
  "Connection '" ++ (c.identifier ++ ("' references unknown target resource '" ++
    (c.to_resource_id ++ "'")))

/-- The warning for a Resource without an associated LayoutObject. -/
def orphanResourceMsg (resource_id : String) : String :=
  "Resource '" ++ (resource_id ++ "' has no associated layout object")

/-- The body of the layout-object loop of DataValidator.validate. -/
def validateLoStep (acc : ValidationResult × CMSDData) (kv : String × LayoutObject) :
    ValidationResult × CMSDData :=
  if hasKey acc.2.resources kv.2.associated_resource_id then acc
  else (acc.1.add_error (loErrorMsg kv.1 kv.2.associated_resource_id), acc.2)

/-- The body of the placement loop of DataValidator.validate. -/
def validatePlacementStep (acc : ValidationResult × CMSDData)
    (kv : String × Placement) : ValidationResult × CMSDData :=
  if hasKey acc.2.layout_objects kv.2.layout_element_id then acc
  else (acc.1.add_error (placementErrorMsg kv.2.layout_element_id), acc.2)

/-- The body of the connection loop of DataValidator.validate: the from and to
endpoints are checked independently. -/
def validateConnStep (acc : ValidationResult × CMSDData) (c : Connection) :
    ValidationResult × CMSDData :=
  let acc := if hasKey acc.2.resources c.from_resource_id then acc
    else (acc.1.add_error (connFromMsg c), acc.2)
  if hasKey acc.2.resources c.to_resource_id then acc
  else (acc.1.add_error (connToMsg c), acc.2)

/-- The body of the orphaned-resource loop of DataValidator.validate. -/
def validateWarnStep (resources_with_layout : List String)
    (acc : ValidationResult × CMSDData) (kv : String × Resource) :
    ValidationResult × CMSDData :=
  if resources_with_layout.contains kv.1 then acc
  else (acc.1.add_warning (orphanResourceMsg kv.1), acc.2)

/-- `if not data.document_identifier:` check of DataValidator.validate. -/
def validateHeaderStep (acc : ValidationResult × CMSDData) :
    ValidationResult × CMSDData :=
  if acc.2.document_identifier = "" then
    (acc.1.add_error "Missing document identifier", acc.2)
  else acc

/-- `if not data.resources:` check of DataValidator.validate. -/
def validateResourcesStep (acc : ValidationResult × CMSDData) :
    ValidationResult × CMSDData :=
  if acc.2.resources.isEmpty then (acc.1.add_error "No resources defined", acc.2)
  else acc

/-- The layout-object loop of DataValidator.validate. -/
def validateLoPhase (acc : ValidationResult × CMSDData) :
    ValidationResult × CMSDData :=
  acc.2.layout_objects.foldl validateLoStep acc

/-- The placement loop of DataValidator.validate (run only when a layout is
present). -/
def validatePlacementPhase (acc : ValidationResult × CMSDData) :
    ValidationResult × CMSDData :=
  match acc.2.layout with
  | some layout => layout.placements.foldl validatePlacementStep acc
  | none => acc

/-- The connection loop of DataValidator.validate. -/
def validateConnPhase (acc : ValidationResult × CMSDData) :
    ValidationResult × CMSDData :=
  acc.2.connections.foldl validateConnStep acc

/-- The orphaned-resource loop of DataValidator.validate. -/
def validateWarnPhase (acc : ValidationResult × CMSDData) :
    ValidationResult × CMSDData :=
  let resources_with_layout := acc.2.layout_objects.map
    (fun (kv : String × LayoutObject) => kv.2.associated_resource_id)
  acc.2.resources.foldl (validateWarnStep resources_with_layout) acc

/-- DataValidator.validate (data_models.py lines 206-258), as the sequence of
its checks.  The Python method receives the document object and returns a
fresh ValidationResult; we thread the document through every step so the
returned second component is the document as the caller sees it after the
call (the source contains no statement that writes to `data`). -/
def DataValidator.validate (data0 : CMSDData) : ValidationResult × CMSDData :=
  validateWarnPhase (validateConnPhase (validatePlacementPhase (validateLoPhase
    (validateResourcesStep (validateHeaderStep (⟨true, [], []⟩, data0))))))

/-! ## Name sanitizer (src/interpreter/mapping_engine.py, NameSanitizer) -/

/-- Python `str.isdigit` restricted to the ASCII digits that appear in the
repository's names (a model: the full method also accepts Unicode digits). -/
def pyIsDigit (c : Char) : Bool :=
  48 ≤ c.toNat && c.toNat ≤ 57

/-- One step of Python `str.replace(old, new)` for a non-empty `old`
(`o :: os`): scan left to right, replacing non-overlapping occurrences. -/
def pyReplaceAux (o : Char) (os new : List Char) : List Char → List Char
  | [] => []
  | c :: rest =>
    if o = c ∧ os.isPrefixOf rest then
      new ++ pyReplaceAux o os new (rest.drop os.length)
    else c :: pyReplaceAux o os new rest
  termination_by l => l.length
  decreasing_by
  · simp only [List.length_drop, List.length_cons]; omega
  · simp only [List.length_cons]; omega

/-- Python `str.replace(old, new)` over code-point lists (an empty `old`
inserts `new` before every character and at the end, as Python does). -/
def pyReplaceL (s old new : List Char) : List Char :=
  match old with
  | [] => new ++ s.flatMap (fun c => c :: new)
  | o :: os => pyReplaceAux o os new s

/-- The naming section of the mapping configuration, a dict read with
`.get(key, default)`; absent keys are `none`. -/
structure NamingConfig where
  case_handling : Option String := none
  invalid_chars : Option (List String) := none
  replacement_char : Option String := none
  max_length : Option Nat := none
deriving DecidableEq

/-- The last two steps of sanitize_name (mapping_engine.py lines 136-145):
truncate to max_length, then prepend obj_ when the (truncated) name starts
with a digit. -/
def truncFix (max_length : Nat) (name0 : List Char) : List Char :=
  let name := if max_length < name0.length then name0.take max_length else name0
  match name with
  | [] => name
  | c :: _ => if pyIsDigit c then "obj_".data ++ name else name

/-- NameSanitizer.sanitize_name over code-point lists: empty-name fallback,
case handling, invalid-character replacement, then truncation and the
leading-digit fix-up (`truncFix`).  Python `str.upper` / `str.lower` are
modelled by `Char.toUpper` / `Char.toLower` (ASCII). -/
def sanitizeChars (config : NamingConfig) (name0 : List Char) : List Char :=
  if name0 = [] then "unnamed".data
  else
    let case_handling := config.case_handling.getD "preserve"
    let name := if case_handling = "upper" then name0.map Char.toUpper
      else if case_handling = "lower" then name0.map Char.toLower
      else name0
    let replacement_char := (config.replacement_char.getD "_").data
    let name := (config.invalid_chars.getD []).foldl
      (fun (n : List Char) (c : String) => pyReplaceL n c.data replacement_char) name
    truncFix (config.max_length.getD 32) name

/-- NameSanitizer.sanitize_name (mapping_engine.py lines 117-145). -/
def NameSanitizer.sanitize_name (config : NamingConfig) (name : String) : String :=
  ⟨sanitizeChars config name.data⟩

/-! ## Parser placement / boundary construction (src/interpreter/xml_parser.py)

`_get_float_by_xpath` returns `None` for an absent or unparsable field and a
float otherwise; the xpath plumbing is abstracted into the `Option ℚ`
arguments below, and `_get_text_by_xpath` returns `""` for an absent field. -/

/-- Python `x or d` for `x : Optional[float]`: `None` and `0.0` are falsy. -/
def pyOrQ (x : Option ℚ) (d : ℚ) : ℚ :=
  match x with
  | none => d
  | some v => if v = 0 then d else v

/-- Python `s or d` for a string `s`: the empty string is falsy. -/
def pyOrS (s d : String) : String :=
  if s = "" then d else s

/-- The body of the `_parse_placements` loop for one placement element
(xml_parser.py lines 340-405), given the extracted field values: skip on a
missing identifier or position, build the position with `pos_z or 0.0`, and
build the rotation only when the angle is present, defaulting each axis with
`or` (so an axis parsed as 0.0 is replaced by the default). -/
def parse_placement (layout_element_id : String)
    (pos_x pos_y pos_z rot_angle rot_axis_x rot_axis_y rot_axis_z : Option ℚ) :
    Option Placement :=
  if layout_element_id = "" then none
  else match pos_x, pos_y with
    | some x, some y =>
      let position : Position := ⟨x, y, pyOrQ pos_z 0⟩
      let rotation : Option Rotation := match rot_angle with
        | none => none
        | some angle =>
          some ⟨angle, pyOrQ rot_axis_x 0, pyOrQ rot_axis_y 0, pyOrQ rot_axis_z 1⟩
      some ⟨layout_element_id, position, rotation⟩
    | _, _ => none

/-- XMLParser._parse_boundary (xml_parser.py lines 409-426) given the
extracted width/depth/height floats and unit text: requires width and depth,
and defaults `height or 1.0` and `unit or "meter"`. -/
def parse_boundary (width depth height : Option ℚ) (unit : String) : Option Boundary :=
  match width, depth with
  | some w, some d => some ⟨w, d, pyOrQ height 1, pyOrS unit "meter"⟩
  | _, _ => none

/-! ## Mapping engine (src/interpreter/mapping_engine.py)

Python floats are modelled as rationals.  The numeric-literal parsers
`float(s)` and `int(s)` are abstracted as the fields of a `FloatModel`, so
every theorem below holds for any parsing behaviour. -/

/-- The values a Plant Simulation property mapping can carry: strings, ints,
floats, coordinate/rotation lists, and the special material-unit info dict. -/
inductive PValue where
  | str (s : String)
  | int (n : Int)
  | float (q : ℚ)
  | floatInf
  | floatNegInf
  | floatNan
  | listQ (l : List ℚ)
  | muInfo (product_type mu_name : String)
deriving DecidableEq

/-- A Python float result: a finite value modelled as a rational, or one of
the non-finite floats +inf / -inf / nan (which `float("inf")`,
`float("1e999")`, `float("nan")` and friends produce). -/
inductive PyFloat where
  | finite (q : ℚ)
  | inf
  | negInf
  | nan
deriving DecidableEq

/-- A Python float stored as a mapped property value. -/
def PValue.ofPyFloat : PyFloat → PValue
  | .finite q => .float q
  | .inf => .floatInf
  | .negInf => .floatNegInf
  | .nan => .floatNan

/-- Python `str(float)` (finite rendering is a model, not Python's
shortest-roundtrip repr; the non-finite reprs are Python's own). -/
def pyFloatStr : PyFloat → String
  | .finite q => toString q
  | .inf => "inf"
  | .negInf => "-inf"
  | .nan => "nan"

/-- Python float multiplication by a finite number (configuration
multipliers are finite literals). -/
def pyMul : PyFloat → ℚ → PyFloat
  | .finite q, m => .finite (q * m)
  | .inf, m => if 0 < m then .inf else if m < 0 then .negInf else .nan
  | .negInf, m => if 0 < m then .negInf else if m < 0 then .inf else .nan
  | .nan, _ => .nan

/-- Python `f >= 0.0`. -/
def pyGe0 : PyFloat → Bool
  | .finite q => decide (0 ≤ q)
  | .inf => true
  | .negInf => false
  | .nan => false

/-- Python `m <= f` for a finite left operand. -/
def pyLeQF (m : ℚ) : PyFloat → Bool
  | .finite q => decide (m ≤ q)
  | .inf => true
  | .negInf => false
  | .nan => false

/-- Python `f <= M` for a finite right operand. -/
def pyLeFQ : PyFloat → ℚ → Bool
  | .finite q, M => decide (q ≤ M)
  | .inf, _ => false
  | .negInf, _ => true
  | .nan, _ => false

/-- A model of Python `str(...)` on these values (numeric rendering is a
model, not Python's shortest-roundtrip float repr). -/
def pyShow : PValue → String
  | .str s => s
  | .int n => toString n
  | .float q => toString q
  | .floatInf => "inf"
  | .floatNegInf => "-inf"
  | .floatNan => "nan"
  | .listQ l => "[" ++ (String.intercalate ", " (l.map toString) ++ "]")
  | .muInfo pt mu =>
    "\x7b" ++ ("product_type: " ++ (pt ++ (", mu_name: " ++ (mu ++ "\x7d"))))

/-- Python `type(value).__name__` for the modelled values. -/
def pyTypeName : PValue → String
  | .str _ => "str"
  | .int _ => "int"
  | .float _ => "float"
  | .floatInf => "float"
  | .floatNegInf => "float"
  | .floatNan => "float"
  | .listQ _ => "list"
  | .muInfo _ _ => "dict"

/-- Abstract model of Python numeric parsing: `pfF` is `float(s)` (`none`
when Python raises ValueError, a `PyFloat` otherwise — in particular "inf" /
"1e999" / "nan" parse to non-finite floats, they do not fail) and `pi` is
`int(s)`, `none` when Python raises ValueError. -/
structure FloatModel where
  pfF : String → Option PyFloat
  pi : String → Option Int

/-- Python `int(float)`: truncation toward zero. -/
def pyIntOfFloat (q : ℚ) : Int :=
  if q < 0 then ⌈q⌉ else ⌊q⌋

/-- One entry of the `unit_conversions` configuration section. -/
structure UnitConversionType where
  base_unit : Option String := none
  conversions : List (String × ℚ) := []
deriving DecidableEq

/-- UnitConverter.convert (mapping_engine.py lines 28-42): no conversion when
the conversion type is unknown, the unit equals the base unit, or the unit is
not in the table; otherwise multiply (Python float multiplication, so a
non-finite value stays non-finite). -/
def UnitConverter.convert (conversion_config : List (String × UnitConversionType))
    (value : PyFloat) (from_unit conversion_type : String) : PyFloat :=
  match lookup? conversion_config conversion_type with
  | none => value
  | some type_config =>
    let base_unit := type_config.base_unit.getD ""
    let conversions := type_config.conversions
    match lookup? conversions from_unit with
    | none => value
    | some multiplier =>
      if from_unit = base_unit then value else pyMul value multiplier

/-- The engine-wide configuration a property mapping needs: the numeric
model, the unit-conversion tables and the validation ranges. -/
structure EngineCtx where
  fm : FloatModel
  unit_conversions : List (String × UnitConversionType) := []
  ranges : List (String × (ℚ × ℚ)) := []

/-- PropertyValidator._validate_data_type (mapping_engine.py lines 79-108):
`int(str(value))` / `float(str(value))` succeed iff the abstract parser does. -/
def validate_data_type (fm : FloatModel) (value : PValue) (data_type : String) : Bool :=
  if data_type = "string" then (match value with | .str _ => true | _ => false)
  else if data_type = "int" then (fm.pi (pyShow value)).isSome
  else if data_type = "float" then (fm.pfF (pyShow value)).isSome
  else if data_type = "positive_int" then
    (match fm.pi (pyShow value) with | some v => decide (0 ≤ v) | none => false)
  else if data_type = "positive_float" then
    (match fm.pfF (pyShow value) with | some f => pyGe0 f | none => false)
  else true

/-- PropertyValidator.validate_property (mapping_engine.py lines 51-77).
For a numeric data type the source computes `float(value)` on a str value
without a try, so an unparsable str raises there: that raise is the
`.error` case. -/
def validate_property (ctx : EngineCtx) (prop_name : String) (value : PValue)
    (data_type : String) : Except String (Bool × String) :=
  if ¬ validate_data_type ctx.fm value data_type then
    .ok (false, "Invalid data type for " ++ (prop_name ++ (". Expected " ++
      (data_type ++ (", got " ++ pyTypeName value)))))
  else if ["float", "int", "positive_float", "positive_int"].contains data_type then
    let numeric_value : Except String (Option PyFloat) := match value with
      | .int n => .ok (some (.finite (n : ℚ)))
      | .float q => .ok (some (.finite q))
      | .floatInf => .ok (some .inf)
      | .floatNegInf => .ok (some .negInf)
      | .floatNan => .ok (some .nan)
      | .str s => (match ctx.fm.pfF s with
         | some f => .ok (some f)
         | none => .error ("could not convert string to float: " ++ s))
      | _ => .ok none
    match numeric_value with
    | .error e => .error e
    | .ok none => .ok (true, "")
    | .ok (some f) =>
      match lookup? ctx.ranges prop_name with
      | none => .ok (true, "")
      | some (min_val, max_val) =>
        if pyLeQF min_val f ∧ pyLeFQ f max_val then .ok (true, "")
        else .ok (false, prop_name ++ (" value " ++ (pyFloatStr f ++
          (" outside valid range [" ++ (toString min_val ++ (", " ++
            (toString max_val ++ "]")))))))
  else .ok (true, "")

/-- The unit-conversion half of MappingEngine._convert_property_value
(mapping_engine.py lines 376-387): applied only when `unit_conversion` and
`xml_property.unit` are both truthy, and kept as the original string when the
value does not parse as a float. -/
def convertValueUnit (ctx : EngineCtx) (xml_property : Property)
    (unit_conversion : Option String) : String :=
  let value := xml_property.value
  match unit_conversion, xml_property.unit with
  | some uc, some u =>
    if uc = "" ∨ u = "" then value
    else match ctx.fm.pfF value with
      | none => value
      | some numeric_value =>
        pyFloatStr (UnitConverter.convert ctx.unit_conversions numeric_value u uc)
  | _, _ => value

/-- The OverflowError message Python raises for `int(float("inf"))`. -/
def overflowMsg : String := "cannot convert float infinity to integer"

/-- The data-type half of MappingEngine._convert_property_value
(mapping_engine.py lines 389-403): coerce the string to the declared data
type.  For "int" the source runs `int(float(value))` guarded only by
`except (ValueError, TypeError)`: an unparsable value or NaN gives 0 (the
ValueError is caught), but a value parsing to plus or minus infinity makes `int(...)`
raise OverflowError, which is NOT caught — the `.error` case.  For
"float"/"positive_float" the parsed float (finite or not) is returned,
defaulting to 0.0 on parse failure; the final `return value` returns the
(string) value unchanged. -/
def coerceToType (ctx : EngineCtx) (value : String) (data_type : String) :
    Except String PValue :=
  if data_type = "int" then
    match ctx.fm.pfF value with
    | some (.finite q) => .ok (.int (pyIntOfFloat q))
    | some .inf => .error overflowMsg
    | some .negInf => .error overflowMsg
    | some .nan => .ok (.int 0)
    | none => .ok (.int 0)
  else if data_type = "float" ∨ data_type = "positive_float" then
    match ctx.fm.pfF value with
    | some f => .ok (PValue.ofPyFloat f)
    | none => .ok (.float 0)
  else if data_type = "string" then .ok (.str value)
  else .ok (.str value)

/-- MappingEngine._convert_property_value (mapping_engine.py lines 372-403):
optional unit conversion, then coercion to the declared data type; the
`.error` case is the uncaught OverflowError of the int branch. -/
def convert_property_value (ctx : EngineCtx) (xml_property : Property)
    (data_type : String) (unit_conversion : Option String) :
    Except String PValue :=
  coerceToType ctx (convertValueUnit ctx xml_property unit_conversion) data_type

/-- One entry of a rule's `properties` section. -/
structure PropConfig where
  plantsim_property : Option String := none
  data_type : Option String := none
  unit_conversion : Option String := none
  special_handler : Option String := none
deriving DecidableEq

/-- One `resource_mappings` rule-table entry (`aliasField` is the config key
"alias"; `alias` is a Lean keyword). -/
structure MappingConfig where
  template : String := ""
  aliasField : Option String := none
  properties : List (String × PropConfig) := []
  required_properties : List String := []
  default_properties : List (String × PValue) := []
deriving DecidableEq

/-- The `{"value": ..., "data_type": ...}` dict stored per mapped property. -/
structure PropData where
  value : PValue
  data_type : String
deriving DecidableEq

/-- mapping_engine.PlantSimMapping: per-object mapping output. -/
structure PlantSimMapping where
  resource : Resource
  config : MappingConfig
  template : String
  properties : List (String × PropData) := []
  errors : List String := []
  warnings : List String := []
deriving DecidableEq

/-- PlantSimMapping built from a resource and its rule entry (template is
`config.get("template", "")`). -/
def PlantSimMapping.init (resource : Resource) (mapping_config : MappingConfig) :
    PlantSimMapping :=
  ⟨resource, mapping_config, mapping_config.template, [], [], []⟩

/-- PlantSimMapping.add_property: dict assignment on `properties`. -/
def PlantSimMapping.add_property (m : PlantSimMapping) (ps_property : String)
    (value : PValue) (data_type : String) : PlantSimMapping :=
  { m with properties := assocSet m.properties ps_property ⟨value, data_type⟩ }

/-- PlantSimMapping.add_error. -/
def PlantSimMapping.add_error (m : PlantSimMapping) (message : String) : PlantSimMapping :=
  { m with errors := m.errors ++ [message] }

/-- PlantSimMapping.add_warning. -/
def PlantSimMapping.add_warning (m : PlantSimMapping) (message : String) : PlantSimMapping :=
  { m with warnings := m.warnings ++ [message] }

/-- The engine state carried across mappings: the product-type → material-unit
name dict and the next letter (initialised to `ord("A") = 65`). -/
structure EngineState where
  material_units : List (String × String) := []
  next_mu_letter : Nat := 65
deriving DecidableEq

/-- MappingEngine._handle_material_unit_assignment (mapping_engine.py lines
423-444): reuse the name stored for the product type, otherwise mint
`Part` + chr(next_mu_letter) and advance the letter; then record the Path
property and the handler metadata. -/
def handle_material_unit_assignment (st : EngineState) (m : PlantSimMapping)
    (xml_property : Property) : PlantSimMapping × EngineState :=
  let product_type := xml_property.value
  let (mu_name, st) := match lookup? st.material_units product_type with
    | some mu_name => (mu_name, st)
    | none =>
      let mu_name := "Part" ++ String.singleton (Char.ofNat st.next_mu_letter)
      (mu_name, ⟨st.material_units ++ [(product_type, mu_name)], st.next_mu_letter + 1⟩)
  let m := m.add_property "Path" (.str mu_name) "material_unit"
  let m := m.add_property "_material_unit_info" (.muInfo product_type mu_name) "special"
  (m, st)

/-- MappingEngine._handle_special_property (mapping_engine.py lines 410-421):
dispatch on the handler name. -/
def handle_special_property (st : EngineState) (m : PlantSimMapping)
    (xml_property : Property) (handler_name : String) : PlantSimMapping × EngineState :=
  if handler_name = "assign_material_unit" then
    handle_material_unit_assignment st m xml_property
  else (m.add_warning ("Unknown special handler: " ++ handler_name), st)

/-- MappingEngine._map_single_property (mapping_engine.py lines 333-370):
return silently when the resource lacks the property; dispatch special
handlers; otherwise convert, validate (range violations become mapping
errors) and record the property. -/
def map_single_property (ctx : EngineCtx) (st : EngineState) (m : PlantSimMapping)
    (xml_prop_name : String) (prop_config : PropConfig) :
    Except String (PlantSimMapping × EngineState) :=
  match m.resource.get_property xml_prop_name with
  | none => .ok (m, st)
  | some xml_property =>
    let ps_property := prop_config.plantsim_property.getD xml_prop_name
    let data_type := prop_config.data_type.getD "string"
    -- if special_handler: (None and "" are falsy)
    if prop_config.special_handler.getD "" ≠ "" then
      .ok (handle_special_property st m xml_property (prop_config.special_handler.getD ""))
    else
      match convert_property_value ctx xml_property data_type
        prop_config.unit_conversion with
      | .error e => .error e
      | .ok value =>
        match validate_property ctx xml_prop_name value data_type with
        | .error e => .error e
        | .ok (is_valid, error_msg) =>
          if ¬ is_valid then .ok (m.add_error error_msg, st)
          else .ok (m.add_property ps_property value data_type, st)

/-- The `for xml_prop_name, prop_config in properties_config.items()` loop of
_map_resource_properties; an exception from any iteration propagates. -/
def mapPropsLoop (ctx : EngineCtx) (st : EngineState) (m : PlantSimMapping) :
    List (String × PropConfig) → Except String (PlantSimMapping × EngineState)
  | [] => .ok (m, st)
  | (xml_prop_name, prop_config) :: rest =>
    match map_single_property ctx st m xml_prop_name prop_config with
    | .error e => .error e
    | .ok (m, st) => mapPropsLoop ctx st m rest

/-- The default-value warning of _map_resource_properties. -/
def defaultValueMsg (req_prop : String) (default_value : PValue) : String :=
  "Using default value for required property '" ++ (req_prop ++ ("': " ++
    pyShow default_value))

/-- The missing-required-property error of _map_resource_properties. -/
def requiredMissingMsg (req_prop : String) : String :=
  "Required property '" ++ (req_prop ++ "' not found and no default available")

/-- MappingEngine._map_resource_properties (mapping_engine.py lines 305-331):
map each configured property, then fill required properties from defaults
(warning) or record an error when no default exists. -/
def map_resource_properties (ctx : EngineCtx) (st : EngineState)
    (m : PlantSimMapping) : Except String (PlantSimMapping × EngineState) :=
  let properties_config := m.config.properties
  let required_props := m.config.required_properties
  let default_props := m.config.default_properties
  match mapPropsLoop ctx st m properties_config with
  | .error e => .error e
  | .ok (m, st) =>
    let m := required_props.foldl
      (fun (m : PlantSimMapping) (req_prop : String) =>
        if (m.resource.properties.map (fun kv => pyLower kv.1)).contains req_prop then m
        else match lookup? default_props req_prop with
          | some default_value =>
            let ps_prop := ((lookup? properties_config req_prop).bind
              (fun pc => pc.plantsim_property)).getD req_prop
            (m.add_property ps_prop default_value "float").add_warning
              (defaultValueMsg req_prop default_value)
          | none => m.add_error (requiredMissingMsg req_prop)) m
    .ok (m, st)

/-- The distinct values of a list in first-seen order. -/
def firstSeen (l : List String) : List String :=
  l.foldl (fun (acc : List String) (p : String) =>
    if acc.contains p then acc else acc ++ [p]) []

/-- Sequential `Part` labels starting at letter code n, one per list entry. -/
def labelsFrom (n : Nat) : List String → List (String × String)
  | [] => []
  | p :: rest => (p, "Part" ++ String.singleton (Char.ofNat n)) :: labelsFrom (n + 1) rest

/-- A resource with no properties, for driving the special handler. -/
def dummyResource : Resource :=
  { identifier := "", resource_type := "", name := "" }

/-- A fresh mapping over `dummyResource`. -/
def dummyMapping : PlantSimMapping :=
  PlantSimMapping.init dummyResource {}

/-- One material/part-type special-handler invocation with source value
`product_type`, keeping only the engine state it threads. -/
def muStep (st : EngineState) (product_type : String) : EngineState :=
  (handle_special_property st dummyMapping
    ⟨"ProductType", product_type, none⟩ "assign_material_unit").2

/-- A sequence of special-handler invocations from the initial engine state
of one Mapping Engine run. -/
def runMU (pts : List String) : EngineState :=
  pts.foldl muStep {}

/-! ## Plant Simulation interface (src/interpreter/plantsim_interface.py)

The backend (COM wrapper / PlantSimulation module / mock) is abstracted into
the operations the orchestrator calls; each may raise, which the mock never
does.  `H` is the handle type for backend objects. -/

/-- The backend capability set: object construction by path, derive, property
assignment (plain value or object-valued for material units), attribute
navigation, and connector-mediated connect. -/
structure Backend (H : Type) where
  mkObject : String → Except String H
  derive : H → H → String → Except String H
  setAttr : H → String → PValue → Except String Unit
  setAttrObj : H → String → H → Except String Unit
  getAttr : H → String → Except String H
  connect : H → H → H → Except String Unit

/-- MockPlantSimObject behaviour: every operation succeeds, derive produces
the path `parent.name`, attribute access appends to the path. -/
def mockBackend : Backend String where
  mkObject := fun path => .ok path
  derive := fun _template parent name => .ok (parent ++ ("." ++ name))
  setAttr := fun _ _ _ => .ok ()
  setAttrObj := fun _ _ _ => .ok ()
  getAttr := fun h name => .ok (h ++ ("." ++ name))
  connect := fun _ _ _ => .ok ()

/-- The interface statistics dict. -/
structure Stats where
  objects_created : Nat := 0
  connections_created : Nat := 0
  errors : Nat := 0
  warnings : Nat := 0
deriving DecidableEq

/-- The mutable interface state: created objects by resource id, created
connections, material-unit objects by name, and statistics. -/
structure PSState (H : Type) where
  created_objects : List (String × H) := []
  created_connections : List (String × String) := []
  material_units : List (String × H) := []
  stats : Stats := {}

/-- The `plantsim_settings` configuration section. -/
structure PlantsimSettings where
  model_frame : Option String := none
  connector : Option String := none
  templates : List (String × String) := []
  user_objects : Option String := none
  naming : NamingConfig := {}
deriving DecidableEq

/-- The configuration dict the interface reads (plantsim_settings,
error_handling, and material_units.template_path). -/
structure IfaceConfig where
  plantsim_settings : PlantsimSettings := {}
  error_handling : List (String × String) := []
  material_units_template_path : Option String := none
deriving DecidableEq

/-- The initialised interface: its configuration plus the model-frame and
connector objects built in _init_plantsim_objects. -/
structure Iface (H : Type) where
  config : IfaceConfig
  model_frame : H
  connector : H

/-- PlantSimInterface._handle_error (plantsim_interface.py lines 438-455):
count the error, attach it to the mapping when one is given, then raise
PlantSimulationError under `error_and_stop` (the `.error` case); `warn_and_
continue` prints and `ignore` does nothing.  The statistics and mapping
updates happen before the raise, as in the source. -/
def handle_error (config : IfaceConfig) (error_type message : String)
    (mapping : Option PlantSimMapping) (stats : Stats) :
    Option PlantSimMapping × Stats × Except String Unit :=
  let stats := { stats with errors := stats.errors + 1 }
  let mapping := mapping.map (fun m => m.add_error message)
  let error_config := (lookup? config.error_handling
    ("on_" ++ (error_type ++ "_error"))).getD "warn_and_continue"
  if error_config = "error_and_stop" then (mapping, stats, .error message)
  else (mapping, stats, .ok ())

/-- A model of passing a Python value where a name string is expected
(the mapping engine always stores a str here). -/
def valueAsString : PValue → String
  | .str s => s
  | v => pyShow v

/-- PlantSimInterface._get_object_name (plantsim_interface.py lines 249-261):
the first property whose key lower-cases to "name", else the sanitized
resource name. -/
def get_object_name (i : Iface H) (m : PlantSimMapping) : String :=
  match m.properties.find? (fun kv => pyLower kv.1 == "name") with
  | some kv => valueAsString kv.2.value
  | none => NameSanitizer.sanitize_name i.config.plantsim_settings.naming m.resource.name

/-- PlantSimInterface._get_or_create_material_unit (lines 346-385): reuse a
cached object, otherwise derive one under user_objects; any raise is caught
and yields None. -/
def get_or_create_material_unit (B : Backend H) (i : Iface H) (mu_name : String)
    (st : PSState H) : Option H × PSState H :=
  match lookup? st.material_units mu_name with
  | some mu_obj => (some mu_obj, st)
  | none =>
    let template_path := i.config.material_units_template_path.getD ".UserObjects.PartA"
    let user_objs_path := i.config.plantsim_settings.user_objects.getD ".UserObjects"
    match B.mkObject template_path with
    | .error _ => (none, st)
    | .ok mu_template =>
      match B.mkObject user_objs_path with
      | .error _ => (none, st)
      | .ok parent_obj =>
        match B.derive mu_template parent_obj mu_name with
        | .error _ => (none, st)
        | .ok mu_obj =>
          (some mu_obj,
           { st with material_units := assocSet st.material_units mu_name mu_obj })

/-- PlantSimInterface._handle_material_unit_property (lines 329-344): assign
the material-unit object, converting every failure into a mapping error. -/
def handle_material_unit_property (B : Backend H) (i : Iface H) (obj : H)
    (prop_name mu_name : String) (m : PlantSimMapping) (st : PSState H) :
    PlantSimMapping × PSState H :=
  let (mu_obj, st) := get_or_create_material_unit B i mu_name st
  match mu_obj with
  | some mu =>
    match B.setAttrObj obj prop_name mu with
    | .ok () => (m, st)
    | .error e =>
      (m.add_error ("Error assigning Material Unit '" ++ (mu_name ++ ("': " ++ e))), st)
  | none => (m.add_error ("Failed to create Material Unit '" ++ (mu_name ++ "'")), st)

/-- Attribute navigation for _set_nested_property: getattr along the parts. -/
def navAttrs (B : Backend H) (obj : H) : List String → Except String H
  | [] => .ok obj
  | part :: rest =>
    match B.getAttr obj part with
    | .error e => .error e
    | .ok next => navAttrs B next rest

/-- PlantSimInterface._set_nested_property (lines 313-327): navigate to the
parent and set the final attribute; the inner except re-raises. -/
def set_nested_property (B : Backend H) (obj : H) (prop_path : String)
    (value : PValue) : Except String Unit :=
  let parts := prop_path.splitOn "."
  match navAttrs B obj parts.dropLast with
  | .error e => .error e
  | .ok current => B.setAttr current (parts.getLastD "") value

/-- PlantSimInterface._set_single_property (lines 275-311).  The returned
`Except` is the exception the caller's try/except sees; the _3D.Rotation
branch swallows its own failure. -/
def set_single_property (B : Backend H) (i : Iface H) (obj : H)
    (prop_name : String) (prop_data : PropData) (m : PlantSimMapping)
    (st : PSState H) : PlantSimMapping × PSState H × Except String Unit :=
  let value := prop_data.value
  let data_type := prop_data.data_type
  if data_type = "material_unit" then
    let (m, st) := handle_material_unit_property B i obj prop_name
      (valueAsString value) m st
    (m, st, .ok ())
  else if data_type = "special" then (m, st, .ok ())
  else if data_type = "list" then
    if prop_name = "_3D.Rotation" then
      -- try: obj._3D.Rotation = value; except: print only
      match B.getAttr obj "_3D" with
      | .error _ => (m, st, .ok ())
      | .ok sub =>
        match B.setAttr sub "Rotation" value with
        | _ => (m, st, .ok ())
    else match value with
      | .listQ l => (m, st, B.setAttr obj prop_name (.listQ l))
      | _ =>
        (m.add_warning ("Expected list for " ++ (prop_name ++ (", got " ++
          pyTypeName value))), st, .ok ())
  else if prop_name.contains '.' then
    (m, st, set_nested_property B obj prop_name value)
  else (m, st, B.setAttr obj prop_name value)

/-- The property loop of _set_object_properties (lines 263-273): skip the
name property, catch per-property raises and route them through
_handle_error("property", ...), which may itself raise and abort the loop. -/
def setPropsLoop (B : Backend H) (i : Iface H) (obj : H) (m : PlantSimMapping)
    (st : PSState H) : List (String × PropData) →
    PlantSimMapping × PSState H × Except String Unit
  | [] => (m, st, .ok ())
  | (prop_name, prop_data) :: rest =>
    if pyLower prop_name = "name" then setPropsLoop B i obj m st rest
    else
      match set_single_property B i obj prop_name prop_data m st with
      | (m, st, .ok ()) => setPropsLoop B i obj m st rest
      | (m, st, .error e) =>
        let error_msg := "Failed to set property " ++ (prop_name ++ (": " ++ e))
        match handle_error i.config "property" error_msg (some m) st.stats with
        | (m2, stats, .error e2) =>
          (m2.getD m, { st with stats := stats }, .error e2)
        | (m2, stats, .ok ()) =>
          setPropsLoop B i obj (m2.getD m) { st with stats := stats } rest

/-- PlantSimInterface._set_object_properties. -/
def set_object_properties (B : Backend H) (i : Iface H) (obj : H)
    (m : PlantSimMapping) (st : PSState H) :
    PlantSimMapping × PSState H × Except String Unit :=
  setPropsLoop B i obj m st m.properties

/-- PlantSimInterface._create_single_object (lines 209-247): every failure
path adds a mapping error and returns None; the trailing except catches any
raise out of derive or property setting, so the returned exception component
is always `.ok ()`. -/
def create_single_object (B : Backend H) (i : Iface H) (m : PlantSimMapping)
    (st : PSState H) : Option H × PlantSimMapping × PSState H × Except String Unit :=
  if m.template = "" then (none, m.add_error "No template specified", st, .ok ())
  else
    let tp0 := (lookup? i.config.plantsim_settings.templates m.template).getD ""
    let template_path := if tp0 = "" then
        (i.config.plantsim_settings.user_objects.getD ".UserObjects") ++
          ("." ++ m.template)
      else tp0
    match B.mkObject template_path with
    | .error e =>
      (none, m.add_error ("Template '" ++ (m.template ++ ("' not found: " ++ e))),
       st, .ok ())
    | .ok template =>
      let obj_name := get_object_name i m
      match B.derive template i.model_frame obj_name with
      | .error e =>
        (none, m.add_error ("Failed to create object from template: " ++ e), st, .ok ())
      | .ok obj =>
        match set_object_properties B i obj m st with
        | (m, st, .ok ()) => (some obj, m, st, .ok ())
        | (m, st, .error e) =>
          (none, m.add_error ("Failed to create object from template: " ++ e),
           st, .ok ())

/-- The loop of create_objects (lines 186-207), returning the local
`created_objects` dict, the processed mappings in order, the final state and
the exception (a raise from _handle_error("creation", ...) aborts the loop). -/
def createObjectsLoop (B : Backend H) (i : Iface H) :
    List (String × PlantSimMapping) → List (String × H) → PSState H →
    List (String × H) × List (String × PlantSimMapping) × PSState H ×
      Except String Unit
  | [], created, st => (created, [], st, .ok ())
  | (resource_id, m) :: rest, created, st =>
    match create_single_object B i m st with
    | (obj?, m, st, .ok ()) =>
      let created := match obj? with
        | some obj => assocSet created resource_id obj
        | none => created
      let st := match obj? with
        | some obj =>
          { st with
            created_objects := assocSet st.created_objects resource_id obj,
            stats := { st.stats with
              objects_created := st.stats.objects_created + 1 } }
        | none => st
      let r := createObjectsLoop B i rest created st
      (r.1, (resource_id, m) :: r.2.1, r.2.2.1, r.2.2.2)
    | (_, m, st, .error e) =>
      let error_msg := "Failed to create object " ++ (m.resource.name ++ (": " ++ e))
      match handle_error i.config "creation" error_msg (some m) st.stats with
      | (m2, stats, .error e2) =>
        (created, [(resource_id, m2.getD m)], { st with stats := stats }, .error e2)
      | (m2, stats, .ok ()) =>
        let r := createObjectsLoop B i rest created { st with stats := stats }
        (r.1, (resource_id, m2.getD m) :: r.2.1, r.2.2.1, r.2.2.2)

/-- PlantSimInterface.create_objects. -/
def create_objects (B : Backend H) (i : Iface H)
    (mappings : List (String × PlantSimMapping)) (st : PSState H) :
    List (String × H) × List (String × PlantSimMapping) × PSState H ×
      Except String Unit :=
  createObjectsLoop B i mappings [] st

/-- PlantSimInterface._create_single_connection (lines 414-436): False when
either endpoint is missing from created_objects or the backend connect
raises (caught); True on success.  Nothing in it can raise. -/
def create_single_connection (B : Backend H) (i : Iface H) (st : PSState H)
    (from_resource_id to_resource_id : String) : Bool :=
  match lookup? st.created_objects from_resource_id with
  | none => false
  | some from_obj =>
    match lookup? st.created_objects to_resource_id with
    | none => false
    | some to_obj =>
      match B.connect i.connector from_obj to_obj with
      | .ok () => true
      | .error _ => false

/-- The loop of create_connections (lines 387-412); the except branch around
_create_single_connection is unreachable since that call cannot raise. -/
def createConnsLoop (B : Backend H) (i : Iface H) :
    List Connection → List (String × String) → PSState H →
    List (String × String) × PSState H
  | [], acc, st => (acc, st)
  | c :: rest, acc, st =>
    if create_single_connection B i st c.from_resource_id c.to_resource_id then
      createConnsLoop B i rest (acc ++ [(c.from_resource_id, c.to_resource_id)])
        { st with stats := { st.stats with
            connections_created := st.stats.connections_created + 1 } }
    else createConnsLoop B i rest acc st

/-- PlantSimInterface.create_connections: run the loop and store the list in
`created_connections`. -/
def create_connections (B : Backend H) (i : Iface H) (cmsd_data : CMSDData)
    (st : PSState H) : List (String × String) × PSState H :=
  let (created_connections, st) := createConnsLoop B i cmsd_data.connections [] st
  (created_connections, { st with created_connections := created_connections })

/-- Python set.add on the model of a set as a duplicate-free list. -/
def pySetAdd (l : List String) (x : String) : List String :=
  if l.contains x then l else l ++ [x]

/-- PlantSimInterface.validate_created_objects (lines 461-475): collect every
endpoint of a created connection, then warn for each created object that
appears in none. -/
def validate_created_objects (st : PSState H) : List String × List String :=
  let connected_objects := st.created_connections.foldl
    (fun (acc : List String) (ft : String × String) =>
      pySetAdd (pySetAdd acc ft.1) ft.2) []
  let warnings := st.created_objects.foldl
    (fun (ws : List String) (kv : String × H) =>
      if connected_objects.contains kv.1 then ws
      else ws ++ ["Object '" ++ (kv.1 ++ "' has no connections")]) []
  ([], warnings)

/-! ## Concrete instances used by witnesses and counterexamples -/

/-- A minimal resource. -/
def resR1 : Resource :=
  { identifier := "r1", resource_type := "machine", name := "M1" }

/-- A document whose single connection references two resource identifiers
that are both absent from `resources`. -/
def c3Doc : CMSDData :=
  { document_identifier := "doc", description := "", version := "1.0",
    creation_time := "t",
    resources := [("r1", resR1)],
    connections := [{ identifier := "c1", from_resource_id := "X",
                      to_resource_id := "Y" }] }

/-- A document whose single connection has an absent source and a present
target. -/
def c3DocW : CMSDData :=
  { document_identifier := "doc", description := "", version := "1.0",
    creation_time := "t",
    resources := [("r1", resR1)],
    connections := [{ identifier := "c1", from_resource_id := "X",
                      to_resource_id := "r1" }] }

/-- A document whose single connection has a present source and an absent
target. -/
def c3DocW2 : CMSDData :=
  { document_identifier := "doc", description := "", version := "1.0",
    creation_time := "t",
    resources := [("r1", resR1)],
    connections := [{ identifier := "c2", from_resource_id := "r1",
                      to_resource_id := "Y" }] }

/-- A float model whose parser accepts exactly the string "inf", as Python
`float` does, and whose int parser accepts nothing. -/
def c8FM : FloatModel :=
  ⟨fun s => if s = "inf" then some PyFloat.inf else none, fun _ => none⟩

/-- An engine context over `c8FM` with no unit conversions and no ranges. -/
def c8Ctx : EngineCtx := ⟨c8FM, [], []⟩

/-- The all-defaults naming configuration (an empty naming dict): preserve
case, no invalid characters, replacement "_", max length 32. -/
def c2Cfg : NamingConfig := {}

/-- An interface over string handles with an empty configuration and the
default model-frame / connector paths. -/
def iface0 : Iface String :=
  { config := {}, model_frame := ".Models.Model",
    connector := ".MaterialFlow.Connector" }

/-- An interface state whose registry holds exactly the created objects A, B
and C. -/
def st4 : PSState String :=
  { created_objects := [("A", "objA"), ("B", "objB"), ("C", "objC")] }

/-- A document whose connection list is exactly [A→B, B→C]. -/
def c4Doc : CMSDData :=
  { document_identifier := "doc", description := "", version := "1.0",
    creation_time := "t",
    connections := [
      { identifier := "k1", from_resource_id := "A", to_resource_id := "B" },
      { identifier := "k2", from_resource_id := "B", to_resource_id := "C" }] }

/-- A backend whose template-object construction fails for the BadT template
path (everything else as the mock). -/
def c1Backend : Backend String :=
  { mockBackend with
    mkObject := fun path =>
      if path = ".UserObjects.BadT" then .error "not found" else .ok path }

/-- An interface configured with error_and_stop for the creation category. -/
def c1Iface : Iface String :=
  { config := { error_handling := [("on_creation_error", "error_and_stop")] },
    model_frame := ".Models.Model", connector := ".MaterialFlow.Connector" }

/-- A mapping whose template cannot be resolved by `c1Backend`. -/
def c1MapBad : PlantSimMapping :=
  PlantSimMapping.init
    { identifier := "r1", resource_type := "machine", name := "M1" }
    { template := "BadT" }

/-- A mapping whose template resolves fine. -/
def c1MapGood : PlantSimMapping :=
  (PlantSimMapping.init
    { identifier := "r2", resource_type := "machine", name := "M2" }
    { template := "GoodT" }).add_property "name" (.str "Obj2") "string"

/-- A 32-digit name: at the configured maximum length and starting with a
digit. -/
def c2Str : String := "11111111111111111111111111111111"

/-- The validator invariant relating is_valid to the recorded errors. -/
def VInv (acc : ValidationResult × CMSDData) : Prop :=
  acc.1.is_valid = acc.1.errors.isEmpty

/-- The frame property: the validator leaves the threaded document equal to
`d`. -/
def DocEq (d : CMSDData) (acc : ValidationResult × CMSDData) : Prop :=
  acc.2 = d

/-! ## Helper lemmas -/

theorem foldl_pres {α β : Type} {P : α → Prop} {f : α → β → α}
    (hf : ∀ a b, P a → P (f a b)) :
    ∀ (l : List β) (a : α), P a → P (l.foldl f a) := by
  intro l
  induction l with
  | nil => intro a h; exact h
  | cons b rest ih => intro a h; exact ih (f a b) (hf a b h)

theorem isEmpty_append_singleton (l : List String) (m : String) :
    (l ++ [m]).isEmpty = false := by
  cases l <;> rfl

theorem VInv_add_error (r : ValidationResult) (d : CMSDData) (msg : String) :
    VInv (r.add_error msg, d) := by
  simp [VInv, ValidationResult.add_error, isEmpty_append_singleton]

theorem VInv_validateLoStep (acc : ValidationResult × CMSDData)
    (kv : String × LayoutObject) (h : VInv acc) : VInv (validateLoStep acc kv) := by
  unfold validateLoStep
  split
  · exact h
  · exact VInv_add_error acc.1 acc.2 _

theorem VInv_validatePlacementStep (acc : ValidationResult × CMSDData)
    (kv : String × Placement) (h : VInv acc) :
    VInv (validatePlacementStep acc kv) := by
  unfold validatePlacementStep
  split
  · exact h
  · exact VInv_add_error acc.1 acc.2 _

theorem VInv_validateConnStep (acc : ValidationResult × CMSDData)
    (c : Connection) (h : VInv acc) : VInv (validateConnStep acc c) := by
  unfold validateConnStep
  dsimp only
  split <;> split
  · exact h
  · exact VInv_add_error acc.1 acc.2 _
  · exact VInv_add_error _ _ _
  · exact VInv_add_error _ _ _

theorem VInv_validateWarnStep (rwl : List String)
    (acc : ValidationResult × CMSDData) (kv : String × Resource) (h : VInv acc) :
    VInv (validateWarnStep rwl acc kv) := by
  unfold validateWarnStep
  split
  · exact h
  · simpa [VInv, ValidationResult.add_warning] using h

theorem VInv_validate (d : CMSDData) : VInv (DataValidator.validate d) := by
  unfold DataValidator.validate validateWarnPhase
  refine foldl_pres (VInv_validateWarnStep _) _ _ ?_
  unfold validateConnPhase
  refine foldl_pres VInv_validateConnStep _ _ ?_
  unfold validatePlacementPhase
  split
  · refine foldl_pres VInv_validatePlacementStep _ _ ?_
    unfold validateLoPhase
    refine foldl_pres VInv_validateLoStep _ _ ?_
    unfold validateResourcesStep validateHeaderStep
    split
    · split
      · exact VInv_add_error _ _ _
      · exact VInv_add_error _ _ _
    · split
      · exact VInv_add_error _ _ _
      · rfl
  · refine (?_ : VInv _ → VInv _) ?_
    · exact id
    · unfold validateLoPhase
      refine foldl_pres VInv_validateLoStep _ _ ?_
      unfold validateResourcesStep validateHeaderStep
      split
      · split
        · exact VInv_add_error _ _ _
        · exact VInv_add_error _ _ _
      · split
        · exact VInv_add_error _ _ _
        · rfl

theorem DocEq_validate (d : CMSDData) : DocEq d (DataValidator.validate d) := by
  unfold DataValidator.validate validateWarnPhase
  refine foldl_pres (fun a kv h => ?_) _ _ ?_
  · unfold validateWarnStep
    split
    · exact h
    · exact h
  · unfold validateConnPhase
    refine foldl_pres (fun a c h => ?_) _ _ ?_
    · unfold validateConnStep
      dsimp only
      split <;> split
      · exact h
      · exact h
      · exact h
      · exact h
    · unfold validatePlacementPhase
      split
      · refine foldl_pres (fun a kv h => ?_) _ _ ?_
        · unfold validatePlacementStep
          split
          · exact h
          · exact h
        · unfold validateLoPhase
          refine foldl_pres (fun a kv h => ?_) _ _ ?_
          · unfold validateLoStep
            split
            · exact h
            · exact h
          · unfold validateResourcesStep validateHeaderStep
            split
            · split
              · rfl
              · rfl
            · split
              · rfl
              · rfl
      · unfold validateLoPhase
        refine foldl_pres (fun a kv h => ?_) _ _ ?_
        · unfold validateLoStep
          split
          · exact h
          · exact h
        · unfold validateResourcesStep validateHeaderStep
          split
          · split
            · rfl
            · rfl
          · split
            · rfl
            · rfl

theorem lo_fold_id (d : CMSDData) (r : ValidationResult)
    (los : List (String × LayoutObject))
    (h : ∀ kv ∈ los, hasKey d.resources kv.2.associated_resource_id = true) :
    los.foldl validateLoStep (r, d) = (r, d) := by
  induction los with
  | nil => rfl
  | cons kv rest ih =>
    rw [List.foldl_cons]
    have hstep : validateLoStep (r, d) kv = (r, d) := by
      simp [validateLoStep, h kv (List.mem_cons_self _ _)]
    rw [hstep]
    exact ih (fun kv hm => h kv (List.mem_cons_of_mem _ hm))

theorem placement_fold_id (d : CMSDData) (r : ValidationResult)
    (ps : List (String × Placement))
    (h : ∀ kv ∈ ps, hasKey d.layout_objects kv.2.layout_element_id = true) :
    ps.foldl validatePlacementStep (r, d) = (r, d) := by
  induction ps with
  | nil => rfl
  | cons kv rest ih =>
    rw [List.foldl_cons]
    have hstep : validatePlacementStep (r, d) kv = (r, d) := by
      simp [validatePlacementStep, h kv (List.mem_cons_self _ _)]
    rw [hstep]
    exact ih (fun kv hm => h kv (List.mem_cons_of_mem _ hm))

theorem warn_fold_fst_errors (rwl : List String) :
    ∀ (rs : List (String × Resource)) (acc : ValidationResult × CMSDData),
    ((rs.foldl (validateWarnStep rwl) acc).1).errors = acc.1.errors := by
  intro rs
  induction rs with
  | nil => intro acc; rfl
  | cons kv rest ih =>
    intro acc
    rw [List.foldl_cons, ih]
    unfold validateWarnStep
    split
    · rfl
    · simp [ValidationResult.add_warning]

/-! ## Claim theorems -/

/-- C5: for every document, the ValidationResult returned by the Validator has
`is_valid = false` exactly when the errors list is non-empty, and adding a
warning never changes `is_valid`. -/
theorem c5_is_valid_iff_errors :
    (∀ d : CMSDData,
      ((DataValidator.validate d).1.is_valid = false ↔
        (DataValidator.validate d).1.errors ≠ [])) ∧
    ∀ (r : ValidationResult) (msg : String),
      (r.add_warning msg).is_valid = r.is_valid := by
  constructor
  · intro d
    have h := VInv_validate d
    unfold VInv at h
    rw [h]
    exact List.isEmpty_eq_false
  · intro r msg
    rfl

/-- C9: running the Validator leaves the document completely unchanged: the
threaded document and each of its fields are equal before and after
validate. -/
theorem c9_validator_pure (d : CMSDData) :
    (DataValidator.validate d).2 = d ∧
    (DataValidator.validate d).2.resources = d.resources ∧
    (DataValidator.validate d).2.connections = d.connections ∧
    (DataValidator.validate d).2.layout_objects = d.layout_objects ∧
    (DataValidator.validate d).2.layout = d.layout ∧
    (DataValidator.validate d).2.part_types = d.part_types ∧
    (DataValidator.validate d).2.document_identifier = d.document_identifier ∧
    (DataValidator.validate d).2.description = d.description ∧
    (DataValidator.validate d).2.version = d.version ∧
    (DataValidator.validate d).2.creation_time = d.creation_time ∧
    (DataValidator.validate d).2.time_unit = d.time_unit ∧
    (DataValidator.validate d).2.length_unit = d.length_unit ∧
    (DataValidator.validate d).2.weight_unit = d.weight_unit := by
  have h : (DataValidator.validate d).2 = d := DocEq_validate d
  simp [h]

/-- C3 (amended): the Validator reports one error per missing connection
endpoint, from and to checked independently; an otherwise-valid document with
exactly one connection that has exactly one absent endpoint gets exactly one
error — the source message when the from endpoint is absent, the target
message when the to endpoint is — and both messages name the connection's
identifier. -/
theorem c3_one_error_per_missing_endpoint (d : CMSDData) (c : Connection)
    (h1 : d.document_identifier ≠ "")
    (h2 : d.resources ≠ [])
    (h3 : ∀ kv ∈ d.layout_objects,
      hasKey d.resources kv.2.associated_resource_id = true)
    (h4 : ∀ L, d.layout = some L →
      ∀ kv ∈ L.placements, hasKey d.layout_objects kv.2.layout_element_id = true)
    (h5 : d.connections = [c])
    (hone : (hasKey d.resources c.from_resource_id = false ∧
             hasKey d.resources c.to_resource_id = true) ∨
            (hasKey d.resources c.from_resource_id = true ∧
             hasKey d.resources c.to_resource_id = false)) :
    (DataValidator.validate d).1.errors =
      [if hasKey d.resources c.from_resource_id = true then connToMsg c
       else connFromMsg c] ∧
    (∃ pre post, connFromMsg c = pre ++ (c.identifier ++ post)) ∧
    (∃ pre post, connToMsg c = pre ++ (c.identifier ++ post)) := by
  refine ⟨?_,
    ⟨"Connection '",
      "' references unknown source resource '" ++ (c.from_resource_id ++ "'"),
      rfl⟩,
    ⟨"Connection '",
      "' references unknown target resource '" ++ (c.to_resource_id ++ "'"),
      rfl⟩⟩
  have hH : validateHeaderStep ((⟨true, [], []⟩ : ValidationResult), d) =
      ((⟨true, [], []⟩ : ValidationResult), d) := by
    simp [validateHeaderStep, h1]
  have hR : validateResourcesStep ((⟨true, [], []⟩ : ValidationResult), d) =
      ((⟨true, [], []⟩ : ValidationResult), d) := by
    simp [validateResourcesStep, h2]
  have hLo : validateLoPhase ((⟨true, [], []⟩ : ValidationResult), d) =
      ((⟨true, [], []⟩ : ValidationResult), d) := by
    unfold validateLoPhase
    exact lo_fold_id d _ _ h3
  have hP : validatePlacementPhase ((⟨true, [], []⟩ : ValidationResult), d) =
      ((⟨true, [], []⟩ : ValidationResult), d) := by
    unfold validatePlacementPhase
    dsimp only
    cases hL : d.layout with
    | none => rfl
    | some L => exact placement_fold_id d _ _ (h4 L hL)
  rcases hone with ⟨h6, h7⟩ | ⟨h6, h7⟩
  · have hC : validateConnPhase ((⟨true, [], []⟩ : ValidationResult), d) =
        ((⟨true, [], []⟩ : ValidationResult).add_error (connFromMsg c), d) := by
      unfold validateConnPhase
      dsimp only
      rw [h5, List.foldl_cons, List.foldl_nil]
      simp [validateConnStep, h6, h7]
    unfold DataValidator.validate
    rw [hH, hR, hLo, hP, hC]
    unfold validateWarnPhase
    dsimp only
    rw [warn_fold_fst_errors, h6]
    rfl
  · have hC : validateConnPhase ((⟨true, [], []⟩ : ValidationResult), d) =
        ((⟨true, [], []⟩ : ValidationResult).add_error (connToMsg c), d) := by
      unfold validateConnPhase
      dsimp only
      rw [h5, List.foldl_cons, List.foldl_nil]
      simp [validateConnStep, h6, h7]
    unfold DataValidator.validate
    rw [hH, hR, hLo, hP, hC]
    unfold validateWarnPhase
    dsimp only
    rw [warn_fold_fst_errors, h6]
    rfl

/-- C3 witness: the amended theorem applied to a concrete document with one
dangling source endpoint, and to one with one dangling target endpoint. -/
theorem c3_witness :
    (DataValidator.validate c3DocW).1.errors =
      [connFromMsg { identifier := "c1", from_resource_id := "X",
                     to_resource_id := "r1" }] ∧
    (DataValidator.validate c3DocW2).1.errors =
      [connToMsg { identifier := "c2", from_resource_id := "r1",
                   to_resource_id := "Y" }] ∧
    (∃ pre post,
      connFromMsg { identifier := "c1", from_resource_id := "X",
                    to_resource_id := "r1" } = pre ++ ("c1" ++ post)) ∧
    ∃ pre post,
      connToMsg { identifier := "c2", from_resource_id := "r1",
                  to_resource_id := "Y" } = pre ++ ("c2" ++ post) := by
  have hW := c3_one_error_per_missing_endpoint c3DocW _
    (by decide) (by decide)
    (by intro kv hm; simp [c3DocW] at hm)
    (by intro L hL; simp [c3DocW] at hL)
    rfl (Or.inl ⟨rfl, rfl⟩)
  have hW2 := c3_one_error_per_missing_endpoint c3DocW2 _
    (by decide) (by decide)
    (by intro kv hm; simp [c3DocW2] at hm)
    (by intro L hL; simp [c3DocW2] at hL)
    rfl (Or.inr ⟨rfl, rfl⟩)
  refine ⟨?_, ?_, hW.2.1, hW2.2.2⟩
  · rw [hW.1]
    rfl
  · rw [hW2.1]
    rfl

/-- C3 counterexample: a document whose single connection references an
absent resource identifier, yet the Validator reports two errors (one per
endpoint), not exactly one. -/
theorem c3_counterexample :
    hasKey c3Doc.resources "X" = false ∧
    (DataValidator.validate c3Doc).1.errors.length = 2 := by
  constructor
  · rfl
  · rfl

/-- C10: a placement whose rotation angle is present and whose rotation
axis-z field parses to exactly 0.0 gets axis_z = 1.0, and a boundary whose
height field parses to exactly 0.0 gets height = 1.0 (Python `or`
defaulting cannot distinguish an explicit 0.0 from an absent field). -/
theorem c10_zero_or_defaults :
    (∀ (layout_element_id : String) (x y angle : ℚ)
      (pos_z rot_axis_x rot_axis_y : Option ℚ),
      layout_element_id ≠ "" →
      ∃ p : Placement,
        parse_placement layout_element_id (some x) (some y) pos_z (some angle)
          rot_axis_x rot_axis_y (some 0) = some p ∧
        ∃ r : Rotation, p.rotation = some r ∧ r.axis_z = 1) ∧
    ∀ (w dep : ℚ) (unit : String),
      ∃ b : Boundary,
        parse_boundary (some w) (some dep) (some 0) unit = some b ∧
        b.height = 1 := by
  constructor
  · intro layout_element_id x y angle pos_z rot_axis_x rot_axis_y hid
    unfold parse_placement
    rw [if_neg hid]
    dsimp only
    refine ⟨_, rfl, _, rfl, ?_⟩
    show pyOrQ (some 0) 1 = 1
    simp [pyOrQ]
  · intro w dep unit
    refine ⟨_, rfl, ?_⟩
    show pyOrQ (some 0) 1 = 1
    simp [pyOrQ]

/-- C10 witness: the theorem applied to a concrete placement and boundary. -/
theorem c10_witness :
    (∃ p : Placement,
      parse_placement "p1" (some 1) (some 2) none (some 90) none none (some 0) =
        some p ∧ ∃ r : Rotation, p.rotation = some r ∧ r.axis_z = 1) ∧
    ∃ b : Boundary,
      parse_boundary (some 3) (some 4) (some 0) "" = some b ∧ b.height = 1 :=
  ⟨c10_zero_or_defaults.1 "p1" 1 2 90 none none none (by decide),
   c10_zero_or_defaults.2 3 4 ""⟩

theorem convertValueUnit_of_pfF_none (ctx : EngineCtx) (p : Property)
    (uc : Option String) (h : ctx.fm.pfF p.value = none) :
    convertValueUnit ctx p uc = p.value := by
  unfold convertValueUnit
  dsimp only
  split
  · split
    · rfl
    · simp [h]
  · rfl

/-- C8: the Mapping Engine's type coercion never raises except through the
int branch on an infinite parsed value: with declared data type string the
result is always an ok string (the unchanged source string when no unit
conversion is configured); with declared type float the coercion always
succeeds, returning the parsed float even when it is non-finite; an
unparsable value coerces to ok 0 / 0.0 under int / float; but a value that
Python parses to +inf with declared type int makes `int(float(value))` raise
an OverflowError that the `except (ValueError, TypeError)` clause does not
catch. -/
theorem c8_coercion_never_raises_except_infinite_int (ctx : EngineCtx)
    (p : Property) (uc : Option String) :
    (∃ s, convert_property_value ctx p "string" uc = .ok (.str s)) ∧
    (uc = none → convert_property_value ctx p "string" uc = .ok (.str p.value)) ∧
    (∃ v, convert_property_value ctx p "float" uc = .ok v) ∧
    (ctx.fm.pfF p.value = none →
      convert_property_value ctx p "int" uc = .ok (.int 0) ∧
      convert_property_value ctx p "float" uc = .ok (.float 0)) ∧
    (uc = none → ctx.fm.pfF p.value = some .inf →
      convert_property_value ctx p "int" uc = .error overflowMsg) := by
  refine ⟨?_, ?_, ?_, ?_, ?_⟩
  · unfold convert_property_value coerceToType
    rw [if_neg (by decide), if_neg (by simp), if_pos rfl]
    exact ⟨_, rfl⟩
  · intro h
    subst h
    unfold convert_property_value coerceToType convertValueUnit
    rw [if_neg (by decide), if_neg (by simp), if_pos rfl]
  · unfold convert_property_value coerceToType
    rw [if_neg (by decide), if_pos (by simp)]
    split
    · exact ⟨_, rfl⟩
    · exact ⟨_, rfl⟩
  · intro h
    have hval := convertValueUnit_of_pfF_none ctx p uc h
    constructor
    · unfold convert_property_value coerceToType
      rw [if_pos rfl, hval, h]
    · unfold convert_property_value coerceToType
      rw [if_neg (by decide), if_pos (by simp), hval, h]
  · intro huc h
    subst huc
    unfold convert_property_value coerceToType convertValueUnit
    dsimp only
    rw [if_pos rfl, h]

theorem sanitizeChars_preserve (maxLen : Nat) (repl : Option String)
    (l : List Char) (hl : l ≠ []) :
    sanitizeChars ⟨some "preserve", some [], repl, some maxLen⟩ l =
      truncFix maxLen l := by
  unfold sanitizeChars
  rw [if_neg hl]
  dsimp only [Option.getD_some]
  rw [if_neg (show ¬("preserve" = "upper") by decide)]
  rw [if_neg (show ¬("preserve" = "lower") by decide)]
  rfl

theorem truncFix_no_trunc_cons (maxLen : Nat) (c : Char) (rest : List Char)
    (hlen : (c :: rest).length ≤ maxLen) :
    truncFix maxLen (c :: rest) =
      (if pyIsDigit c then "obj_".data ++ (c :: rest) else c :: rest) := by
  unfold truncFix
  dsimp only
  rw [if_neg (Nat.not_lt.mpr hlen)]

theorem sanitizeChars_fixed (maxLen : Nat) (repl : Option String) (t : List Char)
    (ht : t ≠ []) (hlen : t.length ≤ maxLen)
    (hd : ∀ c rest, t = c :: rest → pyIsDigit c = false) :
    sanitizeChars ⟨some "preserve", some [], repl, some maxLen⟩ t = t := by
  rw [sanitizeChars_preserve maxLen repl t ht]
  obtain ⟨c, rest, rfl⟩ := List.exists_cons_of_ne_nil ht
  rw [truncFix_no_trunc_cons maxLen c rest hlen]
  simp [hd c rest rfl]

theorem truncFix_cases (maxLen : Nat) (l : List Char) (hl : l ≠ [])
    (hml : 1 ≤ maxLen) :
    ∃ c rest, (if maxLen < l.length then l.take maxLen else l) = c :: rest ∧
      (c :: rest).length ≤ maxLen ∧
      ((pyIsDigit c = false ∧ truncFix maxLen l = c :: rest) ∨
       (pyIsDigit c = true ∧ truncFix maxLen l = "obj_".data ++ (c :: rest))) := by
  have hn3ne : (if maxLen < l.length then l.take maxLen else l) ≠ [] := by
    split
    · intro hnil
      rcases List.take_eq_nil_iff.mp hnil with h | h
      · omega
      · exact hl h
    · exact hl
  have hn3len : (if maxLen < l.length then l.take maxLen else l).length ≤ maxLen := by
    split
    · rw [List.length_take]
      omega
    · next h => exact Nat.le_of_not_lt h
  cases hc : (if maxLen < l.length then l.take maxLen else l) with
  | nil => exact absurd hc hn3ne
  | cons c rest =>
    refine ⟨c, rest, rfl, hc ▸ hn3len, ?_⟩
    have hTF : truncFix maxLen l =
        (if pyIsDigit c then "obj_".data ++ (c :: rest) else c :: rest) := by
      unfold truncFix
      dsimp only
      rw [hc]
    by_cases hdig : pyIsDigit c = true
    · right
      refine ⟨hdig, ?_⟩
      rw [hTF, if_pos hdig]
    · left
      rw [Bool.not_eq_true] at hdig
      refine ⟨hdig, ?_⟩
      rw [hTF, if_neg (by simp [hdig])]

theorem sanitizeChars_idem (maxLen : Nat) (repl : Option String) (l : List Char)
    (hml : 1 ≤ maxLen)
    (hlen : (sanitizeChars ⟨some "preserve", some [], repl, some maxLen⟩ l).length
      ≤ maxLen) :
    sanitizeChars ⟨some "preserve", some [], repl, some maxLen⟩
      (sanitizeChars ⟨some "preserve", some [], repl, some maxLen⟩ l) =
    sanitizeChars ⟨some "preserve", some [], repl, some maxLen⟩ l := by
  by_cases hl : l = []
  · subst hl
    have h0 : sanitizeChars ⟨some "preserve", some [], repl, some maxLen⟩
        ([] : List Char) = "unnamed".data := rfl
    rw [h0] at hlen ⊢
    apply sanitizeChars_fixed
    · decide
    · exact hlen
    · intro c rest h
      rw [show ("unnamed".data : List Char) = 'u' :: "nnamed".data from rfl] at h
      injection h with h1 _
      rw [← h1]
      decide
  · rw [sanitizeChars_preserve maxLen repl l hl] at hlen ⊢
    obtain ⟨c, rest, hc, hclen, hcase | hcase⟩ := truncFix_cases maxLen l hl hml
    · rw [hcase.2] at hlen ⊢
      apply sanitizeChars_fixed
      · exact List.cons_ne_nil _ _
      · exact hlen
      · intro c2 rest2 h2
        injection h2 with h21 _
        rw [← h21]
        exact hcase.1
    · rw [hcase.2] at hlen ⊢
      apply sanitizeChars_fixed
      · rw [show ("obj_".data : List Char) = 'o' :: "bj_".data from rfl,
          List.cons_append]
        exact List.cons_ne_nil _ _
      · exact hlen
      · intro c2 rest2 h2
        rw [show ("obj_".data : List Char) = 'o' :: "bj_".data from rfl,
          List.cons_append] at h2
        injection h2 with h21 _
        rw [← h21]
        decide

/-- C2 (amended): with case handling "preserve" and an empty invalid-character
set, sanitize_name is idempotent on every input whose sanitized name does not
exceed the configured max_length (with max_length at least 1); in general
idempotence fails when prepending the obj_ prefix pushes the sanitized name
past max_length, because the second pass re-truncates it. -/
theorem c2_sanitize_idempotent_within_max_length (maxLen : Nat)
    (repl : Option String) (s : String) (hml : 1 ≤ maxLen)
    (hlen : (NameSanitizer.sanitize_name
      ⟨some "preserve", some [], repl, some maxLen⟩ s).length ≤ maxLen) :
    NameSanitizer.sanitize_name ⟨some "preserve", some [], repl, some maxLen⟩
      (NameSanitizer.sanitize_name ⟨some "preserve", some [], repl, some maxLen⟩ s) =
    NameSanitizer.sanitize_name ⟨some "preserve", some [], repl, some maxLen⟩ s := by
  unfold NameSanitizer.sanitize_name
  have h := sanitizeChars_idem maxLen repl s.data hml hlen
  exact congrArg String.mk h

/-- C2 witness: idempotence at a concrete in-bounds input. -/
theorem c2_witness :
    NameSanitizer.sanitize_name ⟨some "preserve", some [], none, some 32⟩
      (NameSanitizer.sanitize_name ⟨some "preserve", some [], none, some 32⟩
        "Conveyor 1") =
    NameSanitizer.sanitize_name ⟨some "preserve", some [], none, some 32⟩
      "Conveyor 1" :=
  c2_sanitize_idempotent_within_max_length 32 none "Conveyor 1" (by decide) (by decide)

/-- C2 counterexample: under the all-defaults naming configuration a 32-digit
name sanitizes to a 36-character name (obj_ prefix applied after truncation),
and sanitizing again truncates it, so sanitize is not idempotent. -/
theorem c2_counterexample :
    NameSanitizer.sanitize_name c2Cfg (NameSanitizer.sanitize_name c2Cfg c2Str) ≠
      NameSanitizer.sanitize_name c2Cfg c2Str := by
  decide

theorem lookup?_cons {α : Type} (k : String) (v : α) (rest : List (String × α))
    (p : String) :
    lookup? ((k, v) :: rest) p = if k = p then some v else lookup? rest p := by
  unfold lookup?
  by_cases h : k = p
  · subst h
    rw [List.find?_cons_of_pos _ (by simp), if_pos rfl]
    rfl
  · rw [List.find?_cons_of_neg _ (by simpa using h), if_neg h]

theorem map_single_property_absent (ctx : EngineCtx) (st : EngineState)
    (m : PlantSimMapping) (xml_prop_name : String) (prop_config : PropConfig)
    (h : m.resource.get_property xml_prop_name = none) :
    map_single_property ctx st m xml_prop_name prop_config = .ok (m, st) := by
  unfold map_single_property
  rw [h]

theorem mapPropsLoop_absent (ctx : EngineCtx) :
    ∀ (pcs : List (String × PropConfig)) (st : EngineState) (m : PlantSimMapping),
    (∀ kv ∈ pcs, m.resource.get_property kv.1 = none) →
    mapPropsLoop ctx st m pcs = .ok (m, st) := by
  intro pcs
  induction pcs with
  | nil => intro st m _; rfl
  | cons kv rest ih =>
    intro st m h
    obtain ⟨name, pc⟩ := kv
    rw [mapPropsLoop]
    rw [map_single_property_absent ctx st m name pc (h (name, pc) (List.mem_cons_self _ _))]
    exact ih st m (fun kv2 h2 => h kv2 (List.mem_cons_of_mem _ h2))

/-- C6: with required_properties ["speed"] and default_properties
{speed: 0.2}, mapping a resource with no property named "speed" (under a
properties section none of whose sources the resource has) records the
target speed property with value 0.2 and data type float, appends exactly
one warning for it, and adds no error. -/
theorem c6_required_default_applied (ctx : EngineCtx) (st : EngineState)
    (m : PlantSimMapping)
    (hreq : m.config.required_properties = ["speed"])
    (hdef : m.config.default_properties = [("speed", PValue.float (1/5))])
    (habsent : ∀ kv ∈ m.config.properties, m.resource.get_property kv.1 = none)
    (hnospeed : ∀ kv ∈ m.resource.properties, pyLower kv.1 ≠ "speed") :
    map_resource_properties ctx st m = .ok
      ({ m with
         properties := assocSet m.properties
           (((lookup? m.config.properties "speed").bind
             (fun pc => pc.plantsim_property)).getD "speed")
           ⟨PValue.float (1/5), "float"⟩,
         warnings := m.warnings ++ [defaultValueMsg "speed" (PValue.float (1/5))] },
       st) := by
  unfold map_resource_properties
  dsimp only
  rw [mapPropsLoop_absent ctx m.config.properties st m habsent]
  rw [hreq, hdef]
  dsimp only
  rw [List.foldl_cons, List.foldl_nil]
  have hcontains : (m.resource.properties.map
      (fun kv => pyLower kv.1)).contains "speed" = false := by
    by_contra hne
    rw [Bool.not_eq_false] at hne
    obtain ⟨a, ha, hbeq⟩ := List.contains_iff_exists_mem_beq.mp hne
    obtain ⟨kv, hkv, rfl⟩ := List.mem_map.mp ha
    exact hnospeed kv hkv (eq_of_beq hbeq).symm
  rw [hcontains]
  rw [show lookup? [("speed", PValue.float (1/5))] "speed" =
    some (PValue.float (1/5)) from rfl]
  rfl

/-- C6 witness: the theorem at a concrete rule entry and a resource with no
properties. -/
theorem c6_witness :
    map_resource_properties ⟨⟨fun _ => none, fun _ => none⟩, [], []⟩ {}
      (PlantSimMapping.init
        { identifier := "r1", resource_type := "source", name := "Src" }
        { template := "Source", required_properties := ["speed"],
          default_properties := [("speed", PValue.float (1/5))] }) = .ok
      ({ PlantSimMapping.init
          { identifier := "r1", resource_type := "source", name := "Src" }
          { template := "Source", required_properties := ["speed"],
            default_properties := [("speed", PValue.float (1/5))] } with
         properties := [("speed", ⟨PValue.float (1/5), "float"⟩)],
         warnings := [defaultValueMsg "speed" (PValue.float (1/5))] }, {}) :=
  c6_required_default_applied _ _ _ rfl rfl
    (by intro kv h; simp [PlantSimMapping.init] at h)
    (by intro kv h; simp [PlantSimMapping.init, dummyResource] at h)

theorem lookup?_labelsFrom_none :
    ∀ (seen : List String) (n : Nat) (p : String),
    seen.contains p = false → lookup? (labelsFrom n seen) p = none := by
  intro seen
  induction seen with
  | nil => intro n p _; rfl
  | cons q rest ih =>
    intro n p h
    simp only [List.contains_cons, Bool.or_eq_false_iff] at h
    rw [show labelsFrom n (q :: rest) =
      (q, "Part" ++ String.singleton (Char.ofNat n)) :: labelsFrom (n + 1) rest
      from rfl]
    rw [lookup?_cons]
    rw [if_neg (fun hqp => by subst hqp; simp at h)]
    exact ih (n + 1) p h.2

theorem lookup?_labelsFrom_some :
    ∀ (seen : List String) (n : Nat) (p : String),
    seen.contains p = true → ∃ mu, lookup? (labelsFrom n seen) p = some mu := by
  intro seen
  induction seen with
  | nil => intro n p h; simp at h
  | cons q rest ih =>
    intro n p h
    rw [show labelsFrom n (q :: rest) =
      (q, "Part" ++ String.singleton (Char.ofNat n)) :: labelsFrom (n + 1) rest
      from rfl]
    rw [lookup?_cons]
    by_cases hqp : q = p
    · rw [if_pos hqp]
      exact ⟨_, rfl⟩
    · rw [if_neg hqp]
      apply ih (n + 1) p
      simp only [List.contains_cons, Bool.or_eq_true] at h
      rcases h with h | h
      · exact absurd (eq_of_beq h).symm hqp
      · exact h

theorem labelsFrom_append :
    ∀ (seen : List String) (n : Nat) (p : String),
    labelsFrom n (seen ++ [p]) =
      labelsFrom n seen ++
        [(p, "Part" ++ String.singleton (Char.ofNat (n + seen.length)))] := by
  intro seen
  induction seen with
  | nil => intro n p; simp [labelsFrom]
  | cons q rest ih =>
    intro n p
    rw [List.cons_append]
    rw [show labelsFrom n (q :: (rest ++ [p])) =
      (q, "Part" ++ String.singleton (Char.ofNat n)) ::
        labelsFrom (n + 1) (rest ++ [p]) from rfl]
    rw [ih (n + 1) p]
    rw [show labelsFrom n (q :: rest) =
      (q, "Part" ++ String.singleton (Char.ofNat n)) :: labelsFrom (n + 1) rest
      from rfl]
    rw [List.cons_append]
    have harith : n + 1 + rest.length = n + (q :: rest).length := by
      simp only [List.length_cons]
      omega
    rw [harith]

theorem muStep_seen (st : EngineState) (p mu : String)
    (h : lookup? st.material_units p = some mu) : muStep st p = st := by
  unfold muStep handle_special_property
  rw [if_pos rfl]
  unfold handle_material_unit_assignment
  dsimp only
  rw [h]

theorem muStep_new (st : EngineState) (p : String)
    (h : lookup? st.material_units p = none) :
    muStep st p =
      ⟨st.material_units ++
        [(p, "Part" ++ String.singleton (Char.ofNat st.next_mu_letter))],
       st.next_mu_letter + 1⟩ := by
  unfold muStep handle_special_property
  rw [if_pos rfl]
  unfold handle_material_unit_assignment
  dsimp only
  rw [h]

theorem muFold_inv :
    ∀ (pts seen : List String) (st : EngineState),
    st.material_units = labelsFrom 65 seen →
    st.next_mu_letter = 65 + seen.length →
    (pts.foldl muStep st).material_units =
      labelsFrom 65 (pts.foldl (fun (acc : List String) (p : String) =>
        if acc.contains p then acc else acc ++ [p]) seen) ∧
    (pts.foldl muStep st).next_mu_letter =
      65 + (pts.foldl (fun (acc : List String) (p : String) =>
        if acc.contains p then acc else acc ++ [p]) seen).length := by
  intro pts
  induction pts with
  | nil => intro seen st h1 h2; exact ⟨h1, h2⟩
  | cons p rest ih =>
    intro seen st h1 h2
    rw [List.foldl_cons, List.foldl_cons]
    by_cases hcp : seen.contains p = true
    · rw [if_pos hcp]
      obtain ⟨mu, hmu⟩ := lookup?_labelsFrom_some seen 65 p hcp
      rw [muStep_seen st p mu (by rw [h1]; exact hmu)]
      exact ih seen st h1 h2
    · rw [if_neg hcp]
      rw [Bool.not_eq_true] at hcp
      rw [muStep_new st p (by rw [h1]; exact lookup?_labelsFrom_none seen 65 p hcp)]
      apply ih (seen ++ [p])
      · dsimp only
        rw [h1, h2, labelsFrom_append]
      · dsimp only
        rw [List.length_append, List.length_singleton]
        omega

/-- C7: within one run, the material/part-type special handler assigns labels
to distinct source values sequentially in first-seen order (the i-th distinct
value gets Part + chr(65 + i), i.e. PartA, PartB, ...), and an invocation
with an already-seen source value leaves the handler state unchanged and
yields the label stored at its first occurrence. -/
theorem c7_labels_first_seen_stable :
    (∀ pts : List String,
      (runMU pts).material_units = labelsFrom 65 (firstSeen pts) ∧
      (runMU pts).next_mu_letter = 65 + (firstSeen pts).length) ∧
    (∀ (st : EngineState) (m : PlantSimMapping) (p : Property) (mu_name : String),
      lookup? st.material_units p.value = some mu_name →
      handle_material_unit_assignment st m p =
        ((m.add_property "Path" (.str mu_name) "material_unit").add_property
          "_material_unit_info" (.muInfo p.value mu_name) "special", st)) := by
  constructor
  · intro pts
    exact muFold_inv pts [] {} rfl rfl
  · intro st m p mu_name h
    unfold handle_material_unit_assignment
    dsimp only
    rw [h]

/-- C7 witness: a repeated source value keeps its state and first label. -/
theorem c7_witness :
    handle_material_unit_assignment ⟨[("x", "PartA")], 66⟩ dummyMapping
      ⟨"ProductType", "x", none⟩ =
      ((dummyMapping.add_property "Path" (.str "PartA") "material_unit").add_property
        "_material_unit_info" (.muInfo "x" "PartA") "special",
       ⟨[("x", "PartA")], 66⟩) :=
  c7_labels_first_seen_stable.2 ⟨[("x", "PartA")], 66⟩ dummyMapping
    ⟨"ProductType", "x", none⟩ "PartA" rfl

/-- C8 witness: the theorem applied to a parser that accepts nothing at a
concrete unparsable property value, and to `c8Ctx` at the value "inf" with
declared type int, where the coercion raises. -/
theorem c8_witness :
    (∃ s, convert_property_value ⟨⟨fun _ => none, fun _ => none⟩, [], []⟩
      ⟨"speed", "fast", none⟩ "string" none = .ok (.str s)) ∧
    (convert_property_value ⟨⟨fun _ => none, fun _ => none⟩, [], []⟩
      ⟨"speed", "fast", none⟩ "int" none = .ok (.int 0) ∧
     convert_property_value ⟨⟨fun _ => none, fun _ => none⟩, [], []⟩
      ⟨"speed", "fast", none⟩ "float" none = .ok (.float 0)) ∧
    convert_property_value c8Ctx ⟨"capacity", "inf", none⟩ "int" none
      = .error overflowMsg :=
  ⟨(c8_coercion_never_raises_except_infinite_int
      ⟨⟨fun _ => none, fun _ => none⟩, [], []⟩ ⟨"speed", "fast", none⟩ none).1,
   (c8_coercion_never_raises_except_infinite_int
      ⟨⟨fun _ => none, fun _ => none⟩, [], []⟩ ⟨"speed", "fast", none⟩
      none).2.2.2.1 rfl,
   (c8_coercion_never_raises_except_infinite_int c8Ctx
      ⟨"capacity", "inf", none⟩ none).2.2.2.2 rfl rfl⟩

/-- C8 counterexample to totality: Python `float("inf")` succeeds, and
`int(float("inf"))` then raises an uncaught OverflowError, so the coercion
is not total — refuting the claim that coercion never raises. -/
theorem c8_counterexample :
    c8Ctx.fm.pfF "inf" = some PyFloat.inf ∧
    convert_property_value c8Ctx ⟨"capacity", "inf", none⟩ "int" none
      = .error overflowMsg :=
  ⟨rfl, rfl⟩

theorem lookup?_isSome_of_mem {α : Type} :
    ∀ (l : List (String × α)) (k : String),
    (∃ kv ∈ l, kv.1 = k) → ∃ v, lookup? l k = some v := by
  intro l
  induction l with
  | nil =>
    rintro k ⟨kv, h, _⟩
    simp at h
  | cons kv rest ih =>
    rintro k ⟨kv2, hmem, hk⟩
    obtain ⟨k1, v1⟩ := kv
    rw [lookup?_cons]
    by_cases h : k1 = k
    · rw [if_pos h]
      exact ⟨_, rfl⟩
    · rw [if_neg h]
      apply ih
      rcases List.mem_cons.mp hmem with h2 | h2
      · exact absurd (by rw [← hk, h2]) h
      · exact ⟨kv2, h2, hk⟩

theorem pySetAdd_contains_self (l : List String) (x : String) :
    (pySetAdd l x).contains x = true := by
  unfold pySetAdd
  split
  · next h => exact h
  · exact List.contains_iff_exists_mem_beq.mpr ⟨x, by simp, by simp⟩

theorem pySetAdd_contains_mono (l : List String) (x y : String)
    (h : l.contains y = true) : (pySetAdd l x).contains y = true := by
  unfold pySetAdd
  split
  · exact h
  · obtain ⟨a, ha, hbeq⟩ := List.contains_iff_exists_mem_beq.mp h
    exact List.contains_iff_exists_mem_beq.mpr ⟨a, List.mem_append_left _ ha, hbeq⟩

theorem create_single_connection_found {H : Type} (B : Backend H) (i : Iface H)
    (st2 : PSState H) (reg : List (String × H)) (x y : String)
    (hconn : ∀ u v w, B.connect u v w = .ok ())
    (hreg : st2.created_objects = reg)
    (hx : ∃ kv ∈ reg, kv.1 = x) (hy : ∃ kv ∈ reg, kv.1 = y) :
    create_single_connection B i st2 x y = true := by
  unfold create_single_connection
  rw [hreg]
  obtain ⟨vx, hvx⟩ := lookup?_isSome_of_mem reg x hx
  rw [hvx]
  dsimp only
  obtain ⟨vy, hvy⟩ := lookup?_isSome_of_mem reg y hy
  rw [hvy]
  dsimp only
  rw [hconn]

/-- C4: with connections exactly [A→B, B→C], a registry holding exactly the
created objects A, B, C, and a backend whose connect succeeds,
create_connections returns [(A,B), (B,C)] in that order and the post-creation
validation pass reports zero orphan warnings. -/
theorem c4_connection_order_no_orphans {H : Type} (B : Backend H) (i : Iface H)
    (a b c id1 id2 ds1 ds2 : String) (ha hb hc : H) (d : CMSDData)
    (st : PSState H)
    (hconn : ∀ u v w, B.connect u v w = .ok ())
    (hreg : st.created_objects = [(a, ha), (b, hb), (c, hc)])
    (hconns : d.connections = [
      { identifier := id1, from_resource_id := a, to_resource_id := b,
        description := ds1 },
      { identifier := id2, from_resource_id := b, to_resource_id := c,
        description := ds2 }]) :
    (create_connections B i d st).1 = [(a, b), (b, c)] ∧
    (validate_created_objects (create_connections B i d st).2).2 = [] := by
  have hc1 : create_single_connection B i st a b = true :=
    create_single_connection_found B i st _ a b hconn hreg
      ⟨(a, ha), by simp, rfl⟩ ⟨(b, hb), by simp, rfl⟩
  have hc2 : ∀ st2 : PSState H, st2.created_objects = st.created_objects →
      create_single_connection B i st2 b c = true := by
    intro st2 h2
    exact create_single_connection_found B i st2 _ b c hconn (h2.trans hreg)
      ⟨(b, hb), by simp, rfl⟩ ⟨(c, hc), by simp, rfl⟩
  have hloop : createConnsLoop B i d.connections [] st =
      ([(a, b), (b, c)],
       { st with stats := { st.stats with
           connections_created := st.stats.connections_created + 1 + 1 } }) := by
    rw [hconns]
    rw [createConnsLoop]
    dsimp only
    rw [if_pos hc1]
    rw [createConnsLoop]
    dsimp only
    rw [if_pos (hc2 { st with stats := { st.stats with
      connections_created := st.stats.connections_created + 1 } } rfl)]
    rw [createConnsLoop]
    rfl
  constructor
  · unfold create_connections
    rw [hloop]
  · unfold create_connections
    rw [hloop]
    unfold validate_created_objects
    dsimp only
    rw [List.foldl_cons, List.foldl_cons, List.foldl_nil]
    have hca : (pySetAdd (pySetAdd (pySetAdd (pySetAdd [] a) b) b) c).contains a
        = true :=
      pySetAdd_contains_mono _ _ _ (pySetAdd_contains_mono _ _ _
        (pySetAdd_contains_mono _ _ _ (pySetAdd_contains_self [] a)))
    have hcb : (pySetAdd (pySetAdd (pySetAdd (pySetAdd [] a) b) b) c).contains b
        = true :=
      pySetAdd_contains_mono _ _ _ (pySetAdd_contains_mono _ _ _
        (pySetAdd_contains_self _ b))
    have hcc : (pySetAdd (pySetAdd (pySetAdd (pySetAdd [] a) b) b) c).contains c
        = true :=
      pySetAdd_contains_self _ c
    rw [hreg]
    rw [List.foldl_cons, List.foldl_cons, List.foldl_cons, List.foldl_nil]
    rw [if_pos hca, if_pos hcb, if_pos hcc]

/-- C4 witness: the theorem at the mock backend, a concrete registry and the
concrete document [A→B, B→C]. -/
theorem c4_witness :
    (create_connections mockBackend iface0 c4Doc st4).1 = [("A", "B"), ("B", "C")] ∧
    (validate_created_objects (create_connections mockBackend iface0 c4Doc st4).2).2
      = [] :=
  c4_connection_order_no_orphans mockBackend iface0 "A" "B" "C" "k1" "k2" "" ""
    "objA" "objB" "objC" c4Doc st4 (fun _ _ _ => rfl) rfl rfl

theorem navAttrs_mock :
    ∀ (parts : List String) (obj : String),
    ∃ r, navAttrs mockBackend obj parts = .ok r := by
  intro parts
  induction parts with
  | nil => intro obj; exact ⟨obj, rfl⟩
  | cons p rest ih =>
    intro obj
    obtain ⟨r, hr⟩ := ih (obj ++ ("." ++ p))
    exact ⟨r, hr⟩

theorem set_nested_property_mock (obj path : String) (v : PValue) :
    set_nested_property mockBackend obj path v = .ok () := by
  unfold set_nested_property
  dsimp only
  obtain ⟨r, hr⟩ := navAttrs_mock (path.splitOn ".").dropLast obj
  rw [hr]
  rfl

theorem handle_material_unit_property_mock (i : Iface String)
    (obj prop_name mu_name : String) (m : PlantSimMapping) (st : PSState String) :
    (handle_material_unit_property mockBackend i obj prop_name mu_name m st).2.stats
      = st.stats := by
  unfold handle_material_unit_property get_or_create_material_unit
  cases hlk : lookup? st.material_units mu_name with
  | some mu => rfl
  | none => rfl

theorem set_single_property_mock (i : Iface String) (obj prop_name : String)
    (pd : PropData) (m : PlantSimMapping) (st : PSState String) :
    (set_single_property mockBackend i obj prop_name pd m st).2.2 = .ok () ∧
    (set_single_property mockBackend i obj prop_name pd m st).2.1.stats = st.stats := by
  unfold set_single_property
  dsimp only
  split
  · -- material_unit
    constructor
    · rfl
    · exact handle_material_unit_property_mock i obj prop_name
        (valueAsString pd.value) m st
  · split
    · exact ⟨rfl, rfl⟩
    · split
      · -- list
        split
        · exact ⟨rfl, rfl⟩
        · split
          · exact ⟨rfl, rfl⟩
          · exact ⟨rfl, rfl⟩
      · split
        · exact ⟨set_nested_property_mock obj prop_name pd.value, rfl⟩
        · exact ⟨rfl, rfl⟩

theorem setPropsLoop_mock (i : Iface String) (obj : String) :
    ∀ (props : List (String × PropData)) (m : PlantSimMapping) (st : PSState String),
    (setPropsLoop mockBackend i obj m st props).2.2 = .ok () ∧
    (setPropsLoop mockBackend i obj m st props).2.1.stats = st.stats := by
  intro props
  induction props with
  | nil => intro m st; exact ⟨rfl, rfl⟩
  | cons kv rest ih =>
    intro m st
    obtain ⟨prop_name, pd⟩ := kv
    rw [setPropsLoop]
    split
    · exact ih m st
    · rcases hsp : set_single_property mockBackend i obj prop_name pd m st
        with ⟨m', st', ex⟩
      have hm := set_single_property_mock i obj prop_name pd m st
      rw [hsp] at hm
      obtain ⟨hex, hstats⟩ := hm
      have hex' : ex = .ok () := hex
      subst hex'
      dsimp only
      obtain ⟨h1, h2⟩ := ih m' st'
      exact ⟨h1, h2.trans hstats⟩

theorem create_single_object_no_raise {H : Type} (B : Backend H) (i : Iface H)
    (m : PlantSimMapping) (st : PSState H) :
    (create_single_object B i m st).2.2.2 = .ok () := by
  unfold create_single_object
  split
  · rfl
  · dsimp only
    split
    · rfl
    · split
      · rfl
      · split
        · rfl
        · rfl

theorem mockBackend_mkObject (p : String) : mockBackend.mkObject p = .ok p := rfl

theorem mockBackend_derive (t parent name : String) :
    mockBackend.derive t parent name = .ok (parent ++ ("." ++ name)) := rfl

theorem create_single_object_mock (i : Iface String) (m : PlantSimMapping)
    (st : PSState String) :
    (create_single_object mockBackend i m st).2.2.1.stats = st.stats ∧
    (create_single_object mockBackend i m st).2.2.2 = .ok () ∧
    (m.template = "" →
      (create_single_object mockBackend i m st).2.1 =
        m.add_error "No template specified") := by
  unfold create_single_object
  by_cases ht : m.template = ""
  · rw [if_pos ht]
    exact ⟨rfl, rfl, fun _ => rfl⟩
  · rw [if_neg ht]
    dsimp only
    rw [mockBackend_mkObject]
    dsimp only
    rw [mockBackend_derive]
    dsimp only
    generalize i.model_frame ++ ("." ++ get_object_name i m) = obj
    rcases hsp : set_object_properties mockBackend i obj m st with ⟨m', st', ex⟩
    have hm := setPropsLoop_mock i obj m.properties m st
    rw [show setPropsLoop mockBackend i obj m st m.properties =
      set_object_properties mockBackend i obj m st from rfl, hsp] at hm
    obtain ⟨hex, hstats⟩ := hm
    have hex' : ex = .ok () := hex
    subst hex'
    exact ⟨hstats, rfl, fun h => absurd h ht⟩

theorem createObjectsLoop_no_raise {H : Type} (B : Backend H) (i : Iface H) :
    ∀ (mappings : List (String × PlantSimMapping)) (created : List (String × H))
      (st : PSState H),
    (createObjectsLoop B i mappings created st).2.2.2 = .ok () ∧
    (createObjectsLoop B i mappings created st).2.1.length = mappings.length := by
  intro mappings
  induction mappings with
  | nil => intro created st; exact ⟨rfl, rfl⟩
  | cons kv rest ih =>
    intro created st
    obtain ⟨rid, m⟩ := kv
    rw [createObjectsLoop]
    rcases hco : create_single_object B i m st with ⟨obj?, m', st', ex⟩
    have hex : ex = .ok () := by
      have h := create_single_object_no_raise B i m st
      rw [hco] at h
      exact h
    subst hex
    dsimp only
    cases obj? with
    | some obj =>
      dsimp only
      obtain ⟨h1, h2⟩ := ih (assocSet created rid obj)
        { st' with
          created_objects := assocSet st'.created_objects rid obj
          stats := { st'.stats with
            objects_created := st'.stats.objects_created + 1 } }
      exact ⟨h1, by simp [h2]⟩
    | none =>
      dsimp only
      obtain ⟨h1, h2⟩ := ih created st'
      exact ⟨h1, by simp [h2]⟩

theorem createObjectsLoop_mock (i : Iface String) :
    ∀ (mappings : List (String × PlantSimMapping))
      (created : List (String × String)) (st : PSState String),
    (createObjectsLoop mockBackend i mappings created st).2.2.1.stats.errors
      = st.stats.errors ∧
    List.Forall₂ (fun (inp out : String × PlantSimMapping) =>
      inp.1 = out.1 ∧ (inp.2.template = "" →
        out.2 = inp.2.add_error "No template specified"))
      mappings (createObjectsLoop mockBackend i mappings created st).2.1 := by
  intro mappings
  induction mappings with
  | nil => intro created st; exact ⟨rfl, List.Forall₂.nil⟩
  | cons kv rest ih =>
    intro created st
    obtain ⟨rid, m⟩ := kv
    rw [createObjectsLoop]
    rcases hco : create_single_object mockBackend i m st with ⟨obj?, m', st', ex⟩
    have hmock := create_single_object_mock i m st
    rw [hco] at hmock
    obtain ⟨hstats, hex, htempl⟩ := hmock
    have hex' : ex = .ok () := hex
    subst hex'
    dsimp only
    cases obj? with
    | some obj =>
      dsimp only
      obtain ⟨h1, h2⟩ := ih (assocSet created rid obj)
        { st' with
          created_objects := assocSet st'.created_objects rid obj
          stats := { st'.stats with
            objects_created := st'.stats.objects_created + 1 } }
      refine ⟨?_, List.Forall₂.cons ⟨rfl, htempl⟩ h2⟩
      rw [h1]
      dsimp only
      rw [show st'.stats = st.stats from hstats]
    | none =>
      dsimp only
      obtain ⟨h1, h2⟩ := ih created st'
      refine ⟨?_, List.Forall₂.cons ⟨rfl, htempl⟩ h2⟩
      rw [h1, show st'.stats = st.stats from hstats]

/-- C1 (amended): a mapping whose template cannot be resolved is recorded as
a mapping-level error by _create_single_object, which returns None instead of
raising; create_objects therefore never raises under any error-policy
configuration and for any backend, processes every mapping, and (with the
mock backend, where no other operation fails) leaves the statistics error
counter unchanged — the error_and_stop creation policy never fires for
template-resolution failures. -/
theorem c1_template_failure_is_local :
    (∀ (H : Type) (B : Backend H) (i : Iface H)
      (mappings : List (String × PlantSimMapping)) (st : PSState H),
      (create_objects B i mappings st).2.2.2 = .ok () ∧
      (create_objects B i mappings st).2.1.length = mappings.length) ∧
    (∀ (i : Iface String) (mappings : List (String × PlantSimMapping))
      (st : PSState String),
      (create_objects mockBackend i mappings st).2.2.1.stats.errors
        = st.stats.errors ∧
      List.Forall₂ (fun (inp out : String × PlantSimMapping) =>
        inp.1 = out.1 ∧ (inp.2.template = "" →
          out.2 = inp.2.add_error "No template specified"))
        mappings (create_objects mockBackend i mappings st).2.1) := by
  constructor
  · intro H B i mappings st
    exact createObjectsLoop_no_raise B i mappings [] st
  · intro i mappings st
    exact createObjectsLoop_mock i mappings [] st

/-- C1 witness: the amended theorem at a concrete run with one unresolvable
template. -/
theorem c1_witness :
    (create_objects mockBackend iface0
      [("r1", PlantSimMapping.init dummyResource {})] {}).2.2.2 = .ok () ∧
    (create_objects mockBackend iface0
      [("r1", PlantSimMapping.init dummyResource {})] {}).2.1.length = 1 :=
  c1_template_failure_is_local.1 String mockBackend iface0
    [("r1", PlantSimMapping.init dummyResource {})] {}

/-- C1 counterexample: with error_and_stop configured for the creation
category and the first mapping's template unresolvable, create_objects does
not raise, still processes and creates the second mapping's object, and the
statistics error counter stays 0 — refuting both the error_and_stop and the
warn_and_continue halves of the claim. -/
theorem c1_counterexample :
    lookup? c1Iface.config.error_handling "on_creation_error"
      = some "error_and_stop" ∧
    (create_objects c1Backend c1Iface
      [("r1", c1MapBad), ("r2", c1MapGood)] {}).2.2.2 = .ok () ∧
    lookup? (create_objects c1Backend c1Iface
      [("r1", c1MapBad), ("r2", c1MapGood)] {}).1 "r2"
      = some ".Models.Model.Obj2" ∧
    (create_objects c1Backend c1Iface
      [("r1", c1MapBad), ("r2", c1MapGood)] {}).2.2.1.stats.errors = 0 ∧
    (create_objects c1Backend c1Iface
      [("r1", c1MapBad), ("r2", c1MapGood)] {}).2.1 =
      [("r1", c1MapBad.add_error "Template 'BadT' not found: not found"),
       ("r2", c1MapGood)] := by
  exact ⟨rfl, rfl, rfl, rfl, rfl⟩

end ASMG
